import Mathlib

/-!
# Swap-request lifecycle, notifications and chat gate of `backend/server.cjs`

A shallow embedding of the handlers of `src/backend/server.cjs` that work on the
tables `swap_requests_app`, `notifications_app` and `chat_messages`, over a
store that follows the schema created by `initDb` (serial primary keys, the
declared foreign keys to `users`, column defaults), and of the statement
rewriting of `src/backend/pgAdapter.cjs` (`toPgParams`, `run`) on the characters
of the statement text.

Conventions of the embedding:

* a request body field is an `Option`: `none` is an absent (or `null`) field,
  `some v` a field of the column's type; the JavaScript test `!x` is true for
  `none`, for the number `0` and for the empty string;
* a handler is a function from the store, its inputs and the clock reading used
  for `CURRENT_TIMESTAMP` to the HTTP response and the store after every
  statement the handler issued has completed;
* a statement fails exactly when it violates a constraint of the schema; a
  serial value is consumed by a failed insert as well;
* the store keeps the ids of `users` only; a query that selects `users.name`
  takes that column as a function of the user's id;
* a handler named after its route only (`postChat`, `getChat`, ...) takes the id
  of the route as an integer that the statement accepts; the definitions
  `routePostChat`, `routeGetChat`, ... take the route parameter as it arrives and
  have the branch `if (err) return res.status(500)` for a parameter that is not
  an integer in the range of INTEGER.
-/

namespace Nexus

/-! ## Data model -/

/-- JSON scalars that occur in response bodies. -/
inductive JVal where
  | bool (b : Bool)
  | num (n : Int)
  | str (s : String)
deriving DecidableEq, Repr

/-- HTTP response: status code and the fields of the JSON object sent. -/
structure Response where
  status : Nat
  body : List (String × JVal)
deriving DecidableEq, Repr

/-- Row of `swap_requests_app`. -/
structure SwapRequest where
  id : Int
  from_user_id : Int
  to_user_id : Int
  offered_skill : String
  wanted_skill : String
  message : Option String
  status : String
  created_at : Nat
  updated_at : Nat
deriving DecidableEq, Repr

/-- Row of `notifications_app`. -/
structure Notification where
  id : Int
  user_id : Int
  type : String
  title : String
  message : String
  related_id : Int
  is_read : Bool
  created_at : Nat
deriving DecidableEq, Repr

/-- Row of `chat_messages`. -/
structure ChatMessage where
  id : Int
  swap_request_id : Int
  sender_id : Int
  receiver_id : Int
  message : String
  created_at : Nat
deriving DecidableEq, Repr

/-- Database state: the ids of the `users` table, the three tables of the core in
insertion order, and the next value of each table's serial sequence. -/
structure Store where
  users : List Int
  swap_requests_app : List SwapRequest
  notifications_app : List Notification
  chat_messages : List ChatMessage
  swap_requests_seq : Int
  notifications_seq : Int
  chat_messages_seq : Int
deriving DecidableEq, Repr

/-- Store right after `initDb` with the given users: the three tables are empty
and every sequence starts at 1. -/
def Store.init (users : List Int) : Store :=
  { users := users, swap_requests_app := [], notifications_app := [], chat_messages := [],
    swap_requests_seq := 1, notifications_seq := 1, chat_messages_seq := 1 }

/-- Constraint violations a statement of the core can raise. -/
inductive DbError where
  | uniqueViolation (constraint : String)
  | foreignKeyViolation (table : String) (constraint : String)
  | integerOutOfRange (value : String)
  | invalidInteger (text : String)
deriving DecidableEq, Repr

/-- Text of `err.message`. -/
def DbError.message : DbError → String
  | .uniqueViolation c => "duplicate key value violates unique constraint \"" ++ c ++ "\""
  | .foreignKeyViolation t c =>
      "insert or update on table \"" ++ t ++ "\" violates foreign key constraint \"" ++ c ++
        "\""
  | .integerOutOfRange v => "value \"" ++ v ++ "\" is out of range for type integer"
  | .invalidInteger x => "invalid input syntax for type integer: \"" ++ x ++ "\""

/-! ## Statements -/

/-- Statement `INSERT INTO swap_requests_app (from_user_id, to_user_id, offered_skill,
wanted_skill, message) VALUES (?, ?, ?, ?, ?)`: id from the sequence, status
`pending` and both timestamps by default; returns `lastID`. -/
def insertSwapRequest (s : Store) (from_user_id to_user_id : Int)
    (offered_skill wanted_skill : String) (message : Option String) (now : Nat) :
    Except DbError Int × Store :=
  let id := s.swap_requests_seq
  let s1 := { s with swap_requests_seq := id + 1 }
  if id ∈ s.swap_requests_app.map (·.id) then
    (.error (.uniqueViolation "swap_requests_app_pkey"), s1)
  else if from_user_id ∉ s.users then
    (.error (.foreignKeyViolation "swap_requests_app" "fk_sr_from_user"), s1)
  else if to_user_id ∉ s.users then
    (.error (.foreignKeyViolation "swap_requests_app" "fk_sr_to_user"), s1)
  else
    (.ok id,
      { s1 with swap_requests_app := s.swap_requests_app ++
          [{ id := id, from_user_id := from_user_id, to_user_id := to_user_id,
             offered_skill := offered_skill, wanted_skill := wanted_skill,
             message := message, status := "pending",
             created_at := now, updated_at := now }] })

/-- Statement `INSERT INTO notifications_app (user_id, type, title, message, related_id)
VALUES (?, ?, ?, ?, ?)`: id from the sequence, `is_read` false by default. -/
def insertNotification (s : Store) (user_id : Int) (type title message : String)
    (related_id : Int) (now : Nat) : Except DbError Int × Store :=
  let id := s.notifications_seq
  let s1 := { s with notifications_seq := id + 1 }
  if id ∈ s.notifications_app.map (·.id) then
    (.error (.uniqueViolation "notifications_app_pkey"), s1)
  else if user_id ∉ s.users then
    (.error (.foreignKeyViolation "notifications_app" "fk_notif_user"), s1)
  else
    (.ok id,
      { s1 with notifications_app := s.notifications_app ++
          [{ id := id, user_id := user_id, type := type, title := title,
             message := message, related_id := related_id, is_read := false,
             created_at := now }] })

/-- Statement `INSERT INTO chat_messages (swap_request_id, sender_id, receiver_id, message)
VALUES (?, ?, ?, ?)`. -/
def insertChatMessage (s : Store) (swap_request_id sender_id receiver_id : Int)
    (message : String) (now : Nat) : Except DbError Int × Store :=
  let id := s.chat_messages_seq
  let s1 := { s with chat_messages_seq := id + 1 }
  if id ∈ s.chat_messages.map (·.id) then
    (.error (.uniqueViolation "chat_messages_pkey"), s1)
  else if swap_request_id ∉ s.swap_requests_app.map (·.id) then
    (.error (.foreignKeyViolation "chat_messages" "fk_cm_sr"), s1)
  else if sender_id ∉ s.users then
    (.error (.foreignKeyViolation "chat_messages" "fk_cm_sender"), s1)
  else if receiver_id ∉ s.users then
    (.error (.foreignKeyViolation "chat_messages" "fk_cm_receiver"), s1)
  else
    (.ok id,
      { s1 with chat_messages := s.chat_messages ++
          [{ id := id, swap_request_id := swap_request_id, sender_id := sender_id,
             receiver_id := receiver_id, message := message, created_at := now }] })

/-- Statement `UPDATE swap_requests_app SET status = ?, updated_at = CURRENT_TIMESTAMP
WHERE id = ?`. -/
def updateSwapRequestStatus (s : Store) (status : String) (id : Int) (now : Nat) : Store :=
  { s with swap_requests_app := s.swap_requests_app.map fun r =>
      if r.id = id then { r with status := status, updated_at := now } else r }

/-- Query `SELECT * FROM swap_requests_app WHERE id = ?` through `db.get`: the first row. -/
def getSwapRequest (s : Store) (id : Int) : Option SwapRequest :=
  s.swap_requests_app.find? fun r => r.id == id

/-- Statement `UPDATE notifications_app SET is_read = TRUE WHERE id = ?`. -/
def updateNotificationRead (s : Store) (id : Int) : Store :=
  { s with notifications_app := s.notifications_app.map fun n =>
      if n.id = id then { n with is_read := true } else n }

/-- Statement `UPDATE notifications_app SET is_read = TRUE WHERE user_id = ?`. -/
def updateNotificationsReadAll (s : Store) (userId : Int) : Store :=
  { s with notifications_app := s.notifications_app.map fun n =>
      if n.user_id = userId then { n with is_read := true } else n }

/-- Query `SELECT COUNT(*) as count FROM notifications_app WHERE user_id = ? AND
is_read = FALSE`. -/
def countUnread (s : Store) (userId : Int) : Nat :=
  (s.notifications_app.filter fun n => n.user_id == userId && n.is_read == false).length

/-! ## Handlers -/

/-- Body of `POST /api/swap-requests`. -/
structure CreateInput where
  from_user_id : Option Int
  to_user_id : Option Int
  offered_skill : Option String
  wanted_skill : Option String
  message : Option String
deriving DecidableEq, Repr

/-- Body of `POST /api/chat/:swapRequestId`. -/
structure ChatInput where
  sender_id : Option Int
  receiver_id : Option Int
  message : Option String
deriving DecidableEq, Repr

/-- The response `res.status(code).json({ error })`. -/
def errorResponse (code : Nat) (error : String) : Response :=
  { status := code, body := [("error", .str error)] }

/-- Handler `app.post('/api/swap-requests')`. The guard
`!from_user_id || !to_user_id || !offered_skill || !wanted_skill` holds when a field
is absent, is the number 0 or is the empty string. -/
def postSwapRequests (s : Store) (body : CreateInput) (now : Nat) : Response × Store :=
  match body.from_user_id, body.to_user_id, body.offered_skill, body.wanted_skill with
  | some from_user_id, some to_user_id, some offered_skill, some wanted_skill =>
    if from_user_id = 0 ∨ to_user_id = 0 ∨ offered_skill = "" ∨ wanted_skill = "" then
      (errorResponse 400 "Missing required fields", s)
    else
      match insertSwapRequest s from_user_id to_user_id offered_skill wanted_skill
          body.message now with
      | (.error err, s1) => (errorResponse 500 err.message, s1)
      | (.ok requestId, s1) =>
        let s2 := (insertNotification s1 to_user_id "swap_request" "New Swap Request"
          ("You have a new swap request from " ++ toString from_user_id) requestId now).2
        ({ status := 200,
           body := [("success", .bool true), ("id", .num requestId),
                    ("message", .str "Swap request sent successfully")] }, s2)
  | _, _, _, _ => (errorResponse 400 "Missing required fields", s)

/-- Handler `app.put('/api/swap-requests/:id')` for an `id` that the UPDATE accepts as an
INTEGER, as the id of every stored request is. A `status` that is not a string is
never included in `['accepted', 'rejected']` and is represented by `none`. -/
def putSwapRequest (s : Store) (id : Int) (status : Option String) (now : Nat) :
    Response × Store :=
  match status with
  | some status =>
    if status = "accepted" ∨ status = "rejected" then
      let s1 := updateSwapRequestStatus s status id now
      let s2 :=
        match getSwapRequest s1 id with
        | some request =>
          let notificationTitle :=
            if status = "accepted" then "Swap Request Accepted" else "Swap Request Rejected"
          let notificationMessage :=
            if status = "accepted" then "Your swap request has been accepted!"
            else "Your swap request has been rejected."
          (insertNotification s1 request.from_user_id "swap_response" notificationTitle
            notificationMessage id now).2
        | none => s1
      ({ status := 200,
         body := [("success", .bool true), ("message", .str ("Swap request " ++ status))] }, s2)
    else
      (errorResponse 400 "Invalid status. Must be \"accepted\" or \"rejected\"", s)
  | none => (errorResponse 400 "Invalid status. Must be \"accepted\" or \"rejected\"", s)

/-- Handler `app.put('/api/notifications/:id/read')` once the UPDATE has accepted `id` as
an INTEGER; `routePutNotificationRead` is the handler with the error path of the
statement. -/
def putNotificationRead (s : Store) (id : Int) : Response × Store :=
  ({ status := 200, body := [("success", .bool true)] }, updateNotificationRead s id)

/-- Handler `app.put('/api/notifications/:userId/read-all')` once the UPDATE has accepted
`userId` as an INTEGER; `routePutNotificationsReadAll` is the handler with the error path
of the statement. -/
def putNotificationsReadAll (s : Store) (userId : Int) : Response × Store :=
  ({ status := 200, body := [("success", .bool true)] }, updateNotificationsReadAll s userId)

/-- Handler `app.get('/api/notifications/:userId/unread-count')` once the query has
accepted `userId` as an INTEGER; `Number(row.count) || 0` is the count itself.
`routeGetUnreadCount` is the handler with the error path of the query. -/
def getUnreadCount (s : Store) (userId : Int) : Response :=
  { status := 200, body := [("count", .num (countUnread s userId))] }

/-- Handler `app.post('/api/chat/:swapRequestId')` for a `swapRequestId` that the lookup
accepts as an INTEGER, as the id of every stored request is; `routePostChat` is the
handler with the error path of the lookup. -/
def postChat (s : Store) (swapRequestId : Int) (body : ChatInput) (now : Nat) :
    Response × Store :=
  match body.sender_id, body.receiver_id, body.message with
  | some sender_id, some receiver_id, some message =>
    if sender_id = 0 ∨ receiver_id = 0 ∨ message = "" then
      (errorResponse 400 "Missing required fields", s)
    else
      match getSwapRequest s swapRequestId with
      | none => (errorResponse 404 "Swap request not found", s)
      | some request =>
        if request.status ≠ "accepted" then
          (errorResponse 400 "Chat is only available for accepted swap requests", s)
        else
          match insertChatMessage s swapRequestId sender_id receiver_id message now with
          | (.error e, s1) => (errorResponse 500 e.message, s1)
          | (.ok lastID, s1) =>
            let s2 := (insertNotification s1 receiver_id "chat_message" "New Message"
              ("You have a new message from user " ++ toString sender_id) lastID now).2
            ({ status := 200,
               body := [("success", .bool true), ("id", .num lastID),
                        ("message", .str "Message sent successfully")] }, s2)
  | _, _, _ => (errorResponse 400 "Missing required fields", s)

/-! ## Operations and reachable states -/

/-- The mutating operations of the core: Create, Transition, PostMessage, MarkRead and
MarkAllRead, each with its inputs and the clock reading of the call. -/
inductive Op where
  | create (body : CreateInput) (now : Nat)
  | transition (id : Int) (status : Option String) (now : Nat)
  | postMessage (swapRequestId : Int) (body : ChatInput) (now : Nat)
  | markRead (id : Int)
  | markAllRead (userId : Int)
deriving DecidableEq, Repr

/-- Handler run for an operation. -/
def handle (s : Store) : Op → Response × Store
  | .create body now => postSwapRequests s body now
  | .transition id status now => putSwapRequest s id status now
  | .postMessage swapRequestId body now => postChat s swapRequestId body now
  | .markRead id => putNotificationRead s id
  | .markAllRead userId => putNotificationsReadAll s userId

/-- States reachable by the operations from the store holding only the given users. -/
inductive Reachable (users : List Int) : Store → Prop where
  | init : Reachable users (Store.init users)
  | step {s : Store} (op : Op) : Reachable users s → Reachable users (handle s op).2

/-- Integrity of a database state under the schema of `initDb`: every primary key is
below its sequence and unique, and every foreign key refers to an existing row. -/
def Store.wf (s : Store) : Prop :=
  (∀ r ∈ s.swap_requests_app, r.id < s.swap_requests_seq) ∧
  (∀ n ∈ s.notifications_app, n.id < s.notifications_seq) ∧
  (∀ m ∈ s.chat_messages, m.id < s.chat_messages_seq) ∧
  (s.swap_requests_app.map (·.id)).Nodup ∧
  (s.notifications_app.map (·.id)).Nodup ∧
  (s.chat_messages.map (·.id)).Nodup ∧
  (∀ r ∈ s.swap_requests_app, r.from_user_id ∈ s.users ∧ r.to_user_id ∈ s.users) ∧
  (∀ n ∈ s.notifications_app, n.user_id ∈ s.users) ∧
  (∀ m ∈ s.chat_messages, m.swap_request_id ∈ s.swap_requests_app.map (·.id) ∧
    m.sender_id ∈ s.users ∧ m.receiver_id ∈ s.users)

instance Store.wf.decidable (s : Store) : Decidable s.wf := by
  unfold Store.wf; infer_instance

/-- The guard `!from_user_id || !to_user_id || !offered_skill || !wanted_skill`. -/
def missingRequiredFields (body : CreateInput) : Prop :=
  (body.from_user_id = none ∨ body.from_user_id = some 0) ∨
  (body.to_user_id = none ∨ body.to_user_id = some 0) ∨
  (body.offered_skill = none ∨ body.offered_skill = some "") ∨
  (body.wanted_skill = none ∨ body.wanted_skill = some "")

/-- Store with users 1 and 2 in which request 1, from user 1 to user 2, is accepted. -/
def acceptedStore : Store :=
  (putSwapRequest
    (postSwapRequests (Store.init [1, 2])
      { from_user_id := some 1, to_user_id := some 2, offered_skill := some "JS",
        wanted_skill := some "Design", message := none } 10).2
    1 (some "accepted") 11).2

/-! ## Read handlers of the chat -/

/-- Row of `GET /api/chat/:swapRequestId`: `cm.*` and `u.name as sender_name`. -/
structure ChatMessageRow extends ChatMessage where
  sender_name : Option String
deriving DecidableEq, Repr

/-- Handler `app.get('/api/chat/:swapRequestId')`, the rows of its answer once the query
has accepted `swapRequestId` as an INTEGER (`routeGetChat` has the error path):
`FROM chat_messages cm JOIN users u ON cm.sender_id = u.id WHERE cm.swap_request_id = ?
ORDER BY cm.created_at ASC`. The `name` column of `users` is given as a function of the
user's id. -/
def getChat (s : Store) (userName : Int → Option String) (swapRequestId : Int) :
    List ChatMessageRow :=
  ((s.chat_messages.flatMap fun cm =>
      (s.users.filter fun u => cm.sender_id == u).map fun u =>
        ({ toChatMessage := cm, sender_name := userName u } : ChatMessageRow)).filter
    fun row => row.swap_request_id == swapRequestId).insertionSort
    fun a b => a.created_at ≤ b.created_at

/-- Row of `GET /api/chat/user/:userId`. -/
structure Conversation where
  swap_request_id : Int
  offered_skill : String
  wanted_skill : String
  request_date : Nat
  other_user_name : Option String
  other_user_id : Int
  unread_count : Nat
deriving DecidableEq, Repr

/-- Subquery `SELECT cm2.id FROM chat_messages cm2 JOIN notifications_app n ON
n.related_id = cm2.id WHERE n.user_id = ? AND n.type = 'chat_message' AND n.is_read = TRUE`. -/
def readChatMessageIds (s : Store) (userId : Int) : List Int :=
  s.chat_messages.flatMap fun cm2 =>
    (s.notifications_app.filter fun n =>
      n.related_id == cm2.id && n.user_id == userId && n.type == "chat_message" &&
        n.is_read == true).map fun _ => cm2.id

/-- Subquery `SELECT COUNT(*) FROM chat_messages cm WHERE cm.swap_request_id = sr.id AND
cm.receiver_id = ? AND cm.id NOT IN (...)`, the column `unread_count`. -/
def unreadCount (s : Store) (swapRequestId userId : Int) : Nat :=
  (s.chat_messages.filter fun cm =>
    cm.swap_request_id == swapRequestId && cm.receiver_id == userId &&
      decide (cm.id ∉ readChatMessageIds s userId)).length

/-- Handler `app.get('/api/chat/user/:userId')`, the rows of its answer once the query has
accepted `userId` as an INTEGER (`routeGetChatUser` has the error path); `unread_count`
is the number that the row carries as decimal text:
`FROM swap_requests_app sr JOIN users u1 ON (sr.from_user_id = u1.id OR sr.to_user_id =
u1.id) WHERE sr.status = 'accepted' AND (sr.from_user_id = ? OR sr.to_user_id = ?) AND
u1.id != ? ORDER BY sr.updated_at DESC`. -/
def getChatUser (s : Store) (userName : Int → Option String) (userId : Int) :
    List Conversation :=
  (((s.swap_requests_app.flatMap fun sr =>
      (s.users.filter fun u1 => sr.from_user_id == u1 || sr.to_user_id == u1).map fun u1 =>
        (sr, u1)).filter
    fun p => p.1.status == "accepted" &&
      (p.1.from_user_id == userId || p.1.to_user_id == userId) && p.2 != userId).insertionSort
    fun a b => a.1.updated_at ≥ b.1.updated_at).map fun p =>
      { swap_request_id := p.1.id, offered_skill := p.1.offered_skill,
        wanted_skill := p.1.wanted_skill, request_date := p.1.created_at,
        other_user_name := userName p.2, other_user_id := p.2,
        unread_count := unreadCount s p.1.id userId }

/-- Two stores that differ at most in the table `notifications_app` and its sequence. -/
def Store.sameCore (s s' : Store) : Prop :=
  s.users = s'.users ∧ s.swap_requests_app = s'.swap_requests_app ∧
  s.chat_messages = s'.chat_messages ∧ s.swap_requests_seq = s'.swap_requests_seq ∧
  s.chat_messages_seq = s'.chat_messages_seq

instance Store.sameCore.decidable (s s' : Store) : Decidable (s.sameCore s') := by
  unfold Store.sameCore; infer_instance

/-- Store with users 1 and 2 whose notification sequence is behind the table, so that the
next insert into `notifications_app` fails on the primary key. -/
def staleNotificationsStore : Store :=
  { Store.init [1, 2] with
    notifications_app :=
      [{ id := 1, user_id := 1, type := "swap_request", title := "New Swap Request",
         message := "You have a new swap request from 2", related_id := 1,
         is_read := false, created_at := 0 }] }

/-- Two stores that differ at most in fields other than `id` and `status` of their swap
requests, in particular in `from_user_id` and `to_user_id`. -/
def Store.sameButParties (s s' : Store) : Prop :=
  s.users = s'.users ∧ s.notifications_app = s'.notifications_app ∧
  s.chat_messages = s'.chat_messages ∧ s.notifications_seq = s'.notifications_seq ∧
  s.chat_messages_seq = s'.chat_messages_seq ∧
  s.swap_requests_app.map (fun r => (r.id, r.status)) =
    s'.swap_requests_app.map (fun r => (r.id, r.status))

instance Store.sameButParties.decidable (s s' : Store) : Decidable (s.sameButParties s') := by
  unfold Store.sameButParties; infer_instance

/-- Store with users 1 to 4 in which request 1, from user 1 to user 2, is accepted. -/
def fourUsersStore : Store :=
  (putSwapRequest
    (postSwapRequests (Store.init [1, 2, 3, 4])
      { from_user_id := some 1, to_user_id := some 2, offered_skill := some "JS",
        wanted_skill := some "Design", message := none } 10).2
    1 (some "accepted") 11).2

/-- The store `fourUsersStore` with the parties of its request replaced by users 3 and 4. -/
def fourUsersOtherPartiesStore : Store :=
  { fourUsersStore with
    swap_requests_app := fourUsersStore.swap_requests_app.map fun r =>
      { r with from_user_id := 3, to_user_id := 4 } }

/-- Unread count of a conversation as the specification words it: the ChatMessages of the
request addressed to the user whose id is not the `related_id` of any Notification of the
user with type `chat_message` and `is_read` true. -/
def specUnreadCount (s : Store) (swapRequestId userId : Int) : Nat :=
  (s.chat_messages.filter fun m =>
    decide (m.swap_request_id = swapRequestId ∧ m.receiver_id = userId ∧
      ¬∃ n ∈ s.notifications_app, n.user_id = userId ∧ n.type = "chat_message" ∧
        n.is_read = true ∧ n.related_id = m.id)).length

/-- Store with users 1 and 2 in which request 1, from user 1 to user 1, is accepted. -/
def selfSwapStore : Store :=
  (putSwapRequest
    (postSwapRequests (Store.init [1, 2])
      { from_user_id := some 1, to_user_id := some 1, offered_skill := some "JS",
        wanted_skill := some "Design", message := none } 10).2
    1 (some "accepted") 11).2

/-! ## Persistence gateway (`pgAdapter.cjs`) -/

/-- The replacement `sql.replace(/\?/g, () => '$' + (++index))` on the characters of the
text; `index` counts the placeholders replaced so far and is written in decimal. -/
def replacePlaceholders (index : Nat) : List Char → List Char
  | [] => []
  | c :: cs =>
    if c = '?' then
      ('$' :: Nat.toDigits 10 (index + 1)) ++ replacePlaceholders (index + 1) cs
    else c :: replacePlaceholders index cs

/-- Function `toPgParams(sql, params)`: the pair `{ sql: transformed, params }`. -/
def toPgParams {α : Type} (sql : String) (params : List α) : String × List α :=
  (String.mk (replacePlaceholders 0 sql.data), params)

/-- Specification of the translated text: the pieces of the text between its `?`, joined
again with `$k+1`, `$k+2`, ... in this order. -/
def numberedJoin (k : Nat) : List (List Char) → List Char
  | [] => []
  | [piece] => piece
  | piece :: rest => piece ++ ('$' :: Nat.toDigits 10 (k + 1)) ++ numberedJoin (k + 1) rest

/-- Characters matched by `\s` and stripped by `trim()`: the white space and line
terminator code points of ECMAScript. -/
def jsWhiteSpace (c : Char) : Bool :=
  c.toNat = 0x09 || c.toNat = 0x0A || c.toNat = 0x0B || c.toNat = 0x0C || c.toNat = 0x0D ||
  c.toNat = 0x20 || c.toNat = 0xA0 || c.toNat = 0x1680 ||
  (0x2000 ≤ c.toNat && c.toNat ≤ 0x200A) || c.toNat = 0x2028 || c.toNat = 0x2029 ||
  c.toNat = 0x202F || c.toNat = 0x205F || c.toNat = 0x3000 || c.toNat = 0xFEFF

/-- Word characters of `\b`: `[A-Za-z0-9_]`. -/
def jsWordChar (c : Char) : Bool :=
  c.isAlphanum || c = '_'

/-- The call `sql.trim()` on the characters of the text. -/
def jsTrim (l : List Char) : List Char :=
  ((l.dropWhile jsWhiteSpace).reverse.dropWhile jsWhiteSpace).reverse

/-- A character matches a lower-case ASCII letter of a pattern under the flag `i` when it
is that letter or its upper-case form. -/
def ciMatch (c w : Char) : Bool :=
  c == w || c == w.toUpper

/-- Match of a lower-case word under the flag `i` at the start of the text; the result is
the text after the word. -/
def matchWord : List Char → List Char → Option (List Char)
  | [], rest => some rest
  | _ :: _, [] => none
  | w :: ws, c :: cs => if ciMatch c w then matchWord ws cs else none

/-- The test `/^insert\s+/i.test(trimmed)`. -/
def isInsert (trimmed : List Char) : Bool :=
  match matchWord "insert".data trimmed with
  | some (c :: _) => jsWhiteSpace c
  | _ => false

/-- Match of `returning\s+id\b` under the flag `i` at the start of the text. -/
def matchReturningId (l : List Char) : Bool :=
  match matchWord "returning".data l with
  | some (c :: cs) =>
    jsWhiteSpace c &&
      (match matchWord "id".data ((c :: cs).dropWhile jsWhiteSpace) with
       | some [] => true
       | some (d :: _) => !jsWordChar d
       | none => false)
  | _ => false

/-- The test `/returning\s+id\b/i.test(trimmed)`: a match at some position. -/
def hasReturning (trimmed : List Char) : Bool :=
  trimmed.tails.any matchReturningId

/-- The statement `finalSql` of `run`. -/
def finalSql (sql : String) : String :=
  if isInsert (jsTrim sql.data) && !hasReturning (jsTrim sql.data) then
    String.mk (jsTrim sql.data ++ " RETURNING id".data)
  else String.mk (jsTrim sql.data)

/-- Result of `pool.query` as far as `run` reads it: the `id` of every returned row
(absent when the row has none) and `rowCount`. -/
structure QueryResult where
  rows : List (Option Int)
  rowCount : Nat
deriving DecidableEq, Repr

/-- The `this` of the callback of `run` on success. -/
structure RunContext where
  lastID : Option Int
  changes : Nat
deriving DecidableEq, Repr

/-- Text and values that `run(sql, params, cb)` passes to `pool.query`. -/
def runQuery {α : Type} (sql : String) (params : List α) : String × List α :=
  toPgParams (finalSql sql) params

/-- The context `run` builds from the result:
`lastID: isInsert ? (result.rows[0] ? result.rows[0].id : undefined) : undefined`. -/
def runContext (sql : String) (result : QueryResult) : RunContext :=
  { lastID := if isInsert (jsTrim sql.data) then result.rows.head?.join else none,
    changes := result.rowCount }

/-- Specification of "the trimmed statement is an insert": it starts with `insert` in any
letter case followed by a white space character. -/
def startsWithInsert (trimmed : List Char) : Prop :=
  ∃ word c rest, trimmed = word ++ c :: rest ∧
    List.Forall₂ (fun x w => ciMatch x w = true) word "insert".data ∧ jsWhiteSpace c = true

/-- Specification of "has an explicit `returning id`": somewhere in the statement stands
`returning` in any letter case, at least one white space character, `id` in any letter
case, and then the end of the text or a character that is not a word character. -/
def containsReturningId (trimmed : List Char) : Prop :=
  ∃ before kw ws idw after, trimmed = before ++ (kw ++ (ws ++ (idw ++ after))) ∧
    List.Forall₂ (fun x w => ciMatch x w = true) kw "returning".data ∧
    ws ≠ [] ∧ (∀ c ∈ ws, jsWhiteSpace c = true) ∧
    List.Forall₂ (fun x w => ciMatch x w = true) idw "id".data ∧
    (after = [] ∨ ∃ d rest, after = d :: rest ∧ jsWordChar d = false)

/-! ## Route parameters and the error path of the statements

The handlers above take the id of a route as an integer that the INTEGER column of the
statement accepts. A route parameter reaches the statement as the text of the URL; the
statement fails when that text is not an integer or lies outside the range of INTEGER,
and the handler then takes its branch `if (err) return res.status(500)`. -/

/-- Route parameter as the statement receives it: text that reads as an integer, or any
other text. -/
inductive RouteParam where
  | number (n : Int)
  | other (text : String)
deriving DecidableEq, Repr

/-- Range of the column type INTEGER. -/
def inInt4Range (n : Int) : Prop :=
  -2147483648 ≤ n ∧ n ≤ 2147483647

instance inInt4Range.decidable (n : Int) : Decidable (inInt4Range n) := by
  unfold inInt4Range; infer_instance

/-- Value of a parameter that a statement compares with an INTEGER column, or the error
the statement fails with. -/
def RouteParam.toInt4 : RouteParam → Except DbError Int
  | .number n => if inInt4Range n then .ok n else .error (.integerOutOfRange (toString n))
  | .other text => .error (.invalidInteger text)

/-- Answer of a route that sends a list: the rows sent with status 200, or the error
response. -/
inductive ListAnswer (α : Type) where
  | ok (rows : List α)
  | failed (response : Response)
deriving DecidableEq, Repr

/-- Handler `app.put('/api/notifications/:id/read')` with its route parameter:
`if (err) return res.status(500).json({ error: err.message })`, else success. -/
def routePutNotificationRead (s : Store) (id : RouteParam) : Response × Store :=
  match id.toInt4 with
  | .error err => (errorResponse 500 err.message, s)
  | .ok id => putNotificationRead s id

/-- Handler `app.put('/api/notifications/:userId/read-all')` with its route parameter. -/
def routePutNotificationsReadAll (s : Store) (userId : RouteParam) : Response × Store :=
  match userId.toInt4 with
  | .error err => (errorResponse 500 err.message, s)
  | .ok userId => putNotificationsReadAll s userId

/-- Handler `app.get('/api/notifications/:userId/unread-count')` with its route
parameter. -/
def routeGetUnreadCount (s : Store) (userId : RouteParam) : Response :=
  match userId.toInt4 with
  | .error err => errorResponse 500 err.message
  | .ok userId => getUnreadCount s userId

/-- Handler `app.get('/api/chat/:swapRequestId')` with its route parameter: the error
response of `if (err) return res.status(500)`, or `res.json(rows)`. -/
def routeGetChat (s : Store) (userName : Int → Option String) (swapRequestId : RouteParam) :
    ListAnswer ChatMessageRow :=
  match swapRequestId.toInt4 with
  | .error err => .failed (errorResponse 500 err.message)
  | .ok swapRequestId => .ok (getChat s userName swapRequestId)

/-- Handler `app.get('/api/chat/user/:userId')` with its route parameter. -/
def routeGetChatUser (s : Store) (userName : Int → Option String) (userId : RouteParam) :
    ListAnswer Conversation :=
  match userId.toInt4 with
  | .error err => .failed (errorResponse 500 err.message)
  | .ok userId => .ok (getChatUser s userName userId)

/-- Handler `app.post('/api/chat/:swapRequestId')` with its route parameter: the guard
on the body comes first, then the lookup, which fails with 500 when the parameter is
not an INTEGER, and then the handler goes on as `postChat`. -/
def routePostChat (s : Store) (swapRequestId : RouteParam) (body : ChatInput) (now : Nat) :
    Response × Store :=
  match body.sender_id, body.receiver_id, body.message with
  | some sender_id, some receiver_id, some message =>
    if sender_id = 0 ∨ receiver_id = 0 ∨ message = "" then
      (errorResponse 400 "Missing required fields", s)
    else
      match swapRequestId.toInt4 with
      | .error err => (errorResponse 500 err.message, s)
      | .ok id => postChat s id body now
  | _, _, _ => (errorResponse 400 "Missing required fields", s)

/-! ## Integrity is an invariant -/

theorem Store.init_wf (users : List Int) : (Store.init users).wf := by
  simp [Store.wf, Store.init]

theorem fresh_of_lt {α : Type} (l : List α) (key : α → Int) (seq : Int)
    (h : ∀ a ∈ l, key a < seq) : seq ∉ l.map key := by
  intro hmem
  obtain ⟨a, ha, hk⟩ := List.mem_map.1 hmem
  have := h a ha
  omega

theorem nodup_append_fresh {α : Type} (l : List α) (key : α → Int) (a : α)
    (hn : (l.map key).Nodup) (hf : key a ∉ l.map key) : ((l ++ [a]).map key).Nodup := by
  rw [List.map_append, List.nodup_append]
  refine ⟨hn, by simp, ?_⟩
  intro x hx hx'
  simp at hx'
  subst hx'
  exact hf hx

theorem insertNotification_wf (s : Store) (user_id : Int) (type title message : String)
    (related_id : Int) (now : Nat) (h : s.wf) :
    (insertNotification s user_id type title message related_id now).2.wf := by
  obtain ⟨h1, h2, h3, h4, h5, h6, h7, h8, h9⟩ := h
  unfold insertNotification
  simp only
  split_ifs with hpk hfk
  · exact ⟨h1, fun n hn => by have := h2 n hn; dsimp only; omega, h3, h4, h5, h6, h7, h8, h9⟩
  · refine ⟨h1, ?_, h3, h4, ?_, h6, h7, ?_, h9⟩
    · intro n hn
      dsimp only at hn ⊢
      simp only [List.mem_append, List.mem_singleton] at hn
      rcases hn with hn | rfl
      · have := h2 n hn; omega
      · simp
    · exact nodup_append_fresh _ (fun n : Notification => n.id) _ h5 hpk
    · intro n hn
      dsimp only at hn ⊢
      simp only [List.mem_append, List.mem_singleton] at hn
      rcases hn with hn | rfl
      · exact h8 n hn
      · exact hfk
  · exact ⟨h1, fun n hn => by have := h2 n hn; dsimp only; omega, h3, h4, h5, h6, h7, h8, h9⟩

theorem insertSwapRequest_wf (s : Store) (from_user_id to_user_id : Int)
    (offered_skill wanted_skill : String) (message : Option String) (now : Nat) (h : s.wf) :
    (insertSwapRequest s from_user_id to_user_id offered_skill wanted_skill message now).2.wf := by
  obtain ⟨h1, h2, h3, h4, h5, h6, h7, h8, h9⟩ := h
  unfold insertSwapRequest
  simp only
  split_ifs with hpk hf ht
  · exact ⟨fun n hn => by have := h1 n hn; dsimp only; omega, h2, h3, h4, h5, h6, h7, h8, h9⟩
  · refine ⟨?_, h2, h3, ?_, h5, h6, ?_, h8, ?_⟩
    · intro n hn
      dsimp only at hn ⊢
      simp only [List.mem_append, List.mem_singleton] at hn
      rcases hn with hn | rfl
      · have := h1 n hn; omega
      · simp
    · exact nodup_append_fresh _ (fun n : SwapRequest => n.id) _ h4 hpk
    · intro n hn
      dsimp only at hn ⊢
      simp only [List.mem_append, List.mem_singleton] at hn
      rcases hn with hn | rfl
      · exact h7 n hn
      · exact ⟨hf, ht⟩
    · intro m hm
      dsimp only at hm ⊢
      obtain ⟨a, b, c⟩ := h9 m hm
      refine ⟨?_, b, c⟩
      rw [List.map_append]
      exact List.mem_append_left _ a
  · exact ⟨fun n hn => by have := h1 n hn; dsimp only; omega, h2, h3, h4, h5, h6, h7, h8, h9⟩
  · exact ⟨fun n hn => by have := h1 n hn; dsimp only; omega, h2, h3, h4, h5, h6, h7, h8, h9⟩

theorem insertChatMessage_wf (s : Store) (swap_request_id sender_id receiver_id : Int)
    (message : String) (now : Nat) (h : s.wf) :
    (insertChatMessage s swap_request_id sender_id receiver_id message now).2.wf := by
  obtain ⟨h1, h2, h3, h4, h5, h6, h7, h8, h9⟩ := h
  unfold insertChatMessage
  simp only
  split_ifs with hpk hsr hs hr
  · exact ⟨h1, h2, fun n hn => by have := h3 n hn; dsimp only; omega, h4, h5, h6, h7, h8, h9⟩
  · refine ⟨h1, h2, ?_, h4, h5, ?_, h7, h8, ?_⟩
    · intro n hn
      dsimp only at hn ⊢
      simp only [List.mem_append, List.mem_singleton] at hn
      rcases hn with hn | rfl
      · have := h3 n hn; omega
      · simp
    · exact nodup_append_fresh _ (fun n : ChatMessage => n.id) _ h6 hpk
    · intro m hm
      dsimp only at hm ⊢
      simp only [List.mem_append, List.mem_singleton] at hm
      rcases hm with hm | rfl
      · exact h9 m hm
      · exact ⟨hsr, hs, hr⟩
  · exact ⟨h1, h2, fun n hn => by have := h3 n hn; dsimp only; omega, h4, h5, h6, h7, h8, h9⟩
  · exact ⟨h1, h2, fun n hn => by have := h3 n hn; dsimp only; omega, h4, h5, h6, h7, h8, h9⟩
  · exact ⟨h1, h2, fun n hn => by have := h3 n hn; dsimp only; omega, h4, h5, h6, h7, h8, h9⟩

theorem updateSwapRequestStatus_ids (s : Store) (status : String) (id : Int) (now : Nat) :
    (updateSwapRequestStatus s status id now).swap_requests_app.map (·.id) =
      s.swap_requests_app.map (·.id) := by
  unfold updateSwapRequestStatus
  simp only [List.map_map]
  apply List.map_congr_left
  intro r _
  by_cases h : r.id = id <;> simp [h]

theorem updateSwapRequestStatus_wf (s : Store) (status : String) (id : Int) (now : Nat)
    (h : s.wf) : (updateSwapRequestStatus s status id now).wf := by
  have hids := updateSwapRequestStatus_ids s status id now
  obtain ⟨h1, h2, h3, h4, h5, h6, h7, h8, h9⟩ := h
  refine ⟨?_, h2, h3, ?_, h5, h6, ?_, h8, ?_⟩
  · intro r hr
    simp only [updateSwapRequestStatus, List.mem_map] at hr
    obtain ⟨r0, hr0, rfl⟩ := hr
    have := h1 r0 hr0
    by_cases hc : r0.id = id <;> simpa [updateSwapRequestStatus, hc] using this
  · rw [hids]; exact h4
  · intro r hr
    simp only [updateSwapRequestStatus, List.mem_map] at hr
    obtain ⟨r0, hr0, rfl⟩ := hr
    have := h7 r0 hr0
    by_cases hc : r0.id = id <;> simpa [updateSwapRequestStatus, hc] using this
  · intro m hm
    rw [hids]
    exact h9 m hm

theorem updateNotificationRead_wf (s : Store) (id : Int) (h : s.wf) :
    (updateNotificationRead s id).wf := by
  obtain ⟨h1, h2, h3, h4, h5, h6, h7, h8, h9⟩ := h
  have hids : (updateNotificationRead s id).notifications_app.map (·.id) =
      s.notifications_app.map (·.id) := by
    unfold updateNotificationRead
    simp only [List.map_map]
    apply List.map_congr_left
    intro n _
    by_cases h : n.id = id <;> simp [h]
  refine ⟨h1, ?_, h3, h4, ?_, h6, h7, ?_, h9⟩
  · intro n hn
    simp only [updateNotificationRead, List.mem_map] at hn
    obtain ⟨n0, hn0, rfl⟩ := hn
    have := h2 n0 hn0
    by_cases hc : n0.id = id <;> simpa [updateNotificationRead, hc] using this
  · rw [hids]; exact h5
  · intro n hn
    simp only [updateNotificationRead, List.mem_map] at hn
    obtain ⟨n0, hn0, rfl⟩ := hn
    have := h8 n0 hn0
    by_cases hc : n0.id = id <;> simpa [updateNotificationRead, hc] using this

theorem updateNotificationsReadAll_wf (s : Store) (userId : Int) (h : s.wf) :
    (updateNotificationsReadAll s userId).wf := by
  obtain ⟨h1, h2, h3, h4, h5, h6, h7, h8, h9⟩ := h
  have hids : (updateNotificationsReadAll s userId).notifications_app.map (·.id) =
      s.notifications_app.map (·.id) := by
    unfold updateNotificationsReadAll
    simp only [List.map_map]
    apply List.map_congr_left
    intro n _
    by_cases h : n.user_id = userId <;> simp [h]
  refine ⟨h1, ?_, h3, h4, ?_, h6, h7, ?_, h9⟩
  · intro n hn
    simp only [updateNotificationsReadAll, List.mem_map] at hn
    obtain ⟨n0, hn0, rfl⟩ := hn
    have := h2 n0 hn0
    by_cases hc : n0.user_id = userId <;> simpa [updateNotificationsReadAll, hc] using this
  · rw [hids]; exact h5
  · intro n hn
    simp only [updateNotificationsReadAll, List.mem_map] at hn
    obtain ⟨n0, hn0, rfl⟩ := hn
    have := h8 n0 hn0
    by_cases hc : n0.user_id = userId <;> simpa [updateNotificationsReadAll, hc] using this

theorem postSwapRequests_wf (s : Store) (body : CreateInput) (now : Nat) (h : s.wf) :
    (postSwapRequests s body now).2.wf := by
  have hi := fun a b c d => insertSwapRequest_wf s a b c d body.message now h
  unfold postSwapRequests
  split
  · split_ifs
    · exact h
    · split
      · next heq => exact (congrArg (fun p => p.2.wf) heq).mp (hi _ _ _ _)
      · next heq =>
        exact insertNotification_wf _ _ _ _ _ _ _
          ((congrArg (fun p => p.2.wf) heq).mp (hi _ _ _ _))
  · exact h

theorem putSwapRequest_wf (s : Store) (id : Int) (status : Option String) (now : Nat)
    (h : s.wf) : (putSwapRequest s id status now).2.wf := by
  unfold putSwapRequest
  split
  · next st =>
    by_cases hst : st = "accepted" ∨ st = "rejected"
    · rw [if_pos hst]
      have hu := updateSwapRequestStatus_wf s st id now h
      dsimp only
      split
      · exact insertNotification_wf _ _ _ _ _ _ _ hu
      · exact hu
    · rw [if_neg hst]
      exact h
  · exact h

theorem postChat_wf (s : Store) (swapRequestId : Int) (body : ChatInput) (now : Nat)
    (h : s.wf) : (postChat s swapRequestId body now).2.wf := by
  have hi := fun a b c => insertChatMessage_wf s swapRequestId a b c now h
  unfold postChat
  split
  · split_ifs
    · exact h
    · split
      · exact h
      · split_ifs
        · exact h
        · split
          · next heq => exact (congrArg (fun p => p.2.wf) heq).mp (hi _ _ _)
          · next heq =>
            exact insertNotification_wf _ _ _ _ _ _ _
              ((congrArg (fun p => p.2.wf) heq).mp (hi _ _ _))
  · exact h

theorem handle_wf (s : Store) (op : Op) (h : s.wf) : (handle s op).2.wf := by
  cases op with
  | create body now => exact postSwapRequests_wf s body now h
  | transition id status now => exact putSwapRequest_wf s id status now h
  | postMessage swapRequestId body now => exact postChat_wf s swapRequestId body now h
  | markRead id => exact updateNotificationRead_wf s id h
  | markAllRead userId => exact updateNotificationsReadAll_wf s userId h

theorem Reachable.wf {users : List Int} {s : Store} (h : Reachable users s) : s.wf := by
  induction h with
  | init => exact Store.init_wf users
  | step op _ ih => exact handle_wf _ op ih

/-! ## Statements on a state that satisfies the schema -/

theorem insertSwapRequest_ok (s : Store) (from_user_id to_user_id : Int)
    (offered_skill wanted_skill : String) (message : Option String) (now : Nat)
    (hwf : s.wf) (hf : from_user_id ∈ s.users) (ht : to_user_id ∈ s.users) :
    insertSwapRequest s from_user_id to_user_id offered_skill wanted_skill message now =
      (.ok s.swap_requests_seq,
        { s with
          swap_requests_seq := s.swap_requests_seq + 1
          swap_requests_app := s.swap_requests_app ++
            [{ id := s.swap_requests_seq, from_user_id := from_user_id,
               to_user_id := to_user_id, offered_skill := offered_skill,
               wanted_skill := wanted_skill, message := message, status := "pending",
               created_at := now, updated_at := now }] }) := by
  have hfresh := fresh_of_lt s.swap_requests_app (fun r => r.id) s.swap_requests_seq hwf.1
  unfold insertSwapRequest
  simp only
  rw [if_neg hfresh, if_neg (not_not.2 hf), if_neg (not_not.2 ht)]

theorem insertNotification_ok (s : Store) (user_id : Int) (type title message : String)
    (related_id : Int) (now : Nat) (hwf : s.wf) (hu : user_id ∈ s.users) :
    insertNotification s user_id type title message related_id now =
      (.ok s.notifications_seq,
        { s with
          notifications_seq := s.notifications_seq + 1
          notifications_app := s.notifications_app ++
            [{ id := s.notifications_seq, user_id := user_id, type := type, title := title,
               message := message, related_id := related_id, is_read := false,
               created_at := now }] }) := by
  have hfresh := fresh_of_lt s.notifications_app (fun n => n.id) s.notifications_seq hwf.2.1
  unfold insertNotification
  simp only
  rw [if_neg hfresh, if_neg (not_not.2 hu)]

theorem insertChatMessage_ok (s : Store) (swap_request_id sender_id receiver_id : Int)
    (message : String) (now : Nat) (hwf : s.wf)
    (hsr : swap_request_id ∈ s.swap_requests_app.map (·.id))
    (hs : sender_id ∈ s.users) (hr : receiver_id ∈ s.users) :
    insertChatMessage s swap_request_id sender_id receiver_id message now =
      (.ok s.chat_messages_seq,
        { s with
          chat_messages_seq := s.chat_messages_seq + 1
          chat_messages := s.chat_messages ++
            [{ id := s.chat_messages_seq, swap_request_id := swap_request_id,
               sender_id := sender_id, receiver_id := receiver_id, message := message,
               created_at := now }] }) := by
  have hfresh := fresh_of_lt s.chat_messages (fun m => m.id) s.chat_messages_seq hwf.2.2.1
  unfold insertChatMessage
  simp only
  rw [if_neg hfresh, if_neg (not_not.2 hsr), if_neg (not_not.2 hs), if_neg (not_not.2 hr)]

theorem find_of_mem_nodup (l : List SwapRequest) (r : SwapRequest)
    (hn : (l.map (·.id)).Nodup) (hr : r ∈ l) :
    l.find? (fun x => x.id == r.id) = some r := by
  induction l with
  | nil => cases hr
  | cons a l ih =>
    rw [List.map_cons, List.nodup_cons] at hn
    rcases List.mem_cons.1 hr with rfl | hr'
    · simp
    · have hne : a.id ≠ r.id := by
        intro h
        exact hn.1 (h ▸ List.mem_map_of_mem (·.id) hr')
      rw [List.find?_cons_of_neg]
      · exact ih hn.2 hr'
      · simpa using hne

theorem getSwapRequest_of_mem (s : Store) (r : SwapRequest) (hwf : s.wf)
    (hr : r ∈ s.swap_requests_app) : getSwapRequest s r.id = some r :=
  find_of_mem_nodup _ r hwf.2.2.2.1 hr

theorem getSwapRequest_none (s : Store) (id : Int)
    (h : ∀ r ∈ s.swap_requests_app, r.id ≠ id) : getSwapRequest s id = none := by
  unfold getSwapRequest
  rw [List.find?_eq_none]
  intro r hr
  simpa using h r hr

theorem getSwapRequest_some (s : Store) (id : Int) (r : SwapRequest)
    (h : getSwapRequest s id = some r) : r ∈ s.swap_requests_app ∧ r.id = id := by
  unfold getSwapRequest at h
  exact ⟨List.mem_of_find?_eq_some h, by simpa using List.find?_some h⟩

/-! ## Create -/

/-- C1 (as stated, refuted): on the store with users 1 and 2 and nothing else, a Create
whose four required fields are all present fails with 400 and writes nothing when
`wanted_skill` is the empty string, and fails with 500 and adds no request and no
notification when `to_user_id` is 7, which is no user's id. -/
theorem postSwapRequests_present_not_sufficient :
    (Store.init [1, 2]).wf ∧
    postSwapRequests (Store.init [1, 2])
        { from_user_id := some 1, to_user_id := some 2, offered_skill := some "JS",
          wanted_skill := some "", message := none } 0 =
      (errorResponse 400 "Missing required fields", Store.init [1, 2]) ∧
    (postSwapRequests (Store.init [1, 2])
        { from_user_id := some 1, to_user_id := some 7, offered_skill := some "JS",
          wanted_skill := some "Design", message := none } 0).1.status = 500 ∧
    (postSwapRequests (Store.init [1, 2])
        { from_user_id := some 1, to_user_id := some 7, offered_skill := some "JS",
          wanted_skill := some "Design", message := none } 0).2.swap_requests_app = [] ∧
    (postSwapRequests (Store.init [1, 2])
        { from_user_id := some 1, to_user_id := some 7, offered_skill := some "JS",
          wanted_skill := some "Design", message := none } 0).2.notifications_app = [] := by
  decide

/-- C1 (amended): on a store that satisfies its schema, a Create whose `from_user_id` and
`to_user_id` are non-zero ids of existing users and whose `offered_skill` and
`wanted_skill` are non-empty answers 200 with the new id, appends exactly one
SwapRequest with a fresh id, status `pending` and the given fields, appends exactly one
Notification of type `swap_request` for `to_user_id` with `related_id` the new request's
id, and leaves the earlier requests and notifications, the chat messages and the users as
they were. -/
theorem postSwapRequests_valid (s : Store) (from_user_id to_user_id : Int)
    (offered_skill wanted_skill : String) (message : Option String) (now : Nat)
    (hwf : s.wf) (hf : from_user_id ≠ 0) (ht : to_user_id ≠ 0)
    (ho : offered_skill ≠ "") (hw : wanted_skill ≠ "")
    (hfu : from_user_id ∈ s.users) (htu : to_user_id ∈ s.users) :
    (postSwapRequests s
        { from_user_id := some from_user_id, to_user_id := some to_user_id,
          offered_skill := some offered_skill, wanted_skill := some wanted_skill,
          message := message } now).1 =
      { status := 200,
        body := [("success", .bool true), ("id", .num s.swap_requests_seq),
                 ("message", .str "Swap request sent successfully")] } ∧
    (postSwapRequests s
        { from_user_id := some from_user_id, to_user_id := some to_user_id,
          offered_skill := some offered_skill, wanted_skill := some wanted_skill,
          message := message } now).2.swap_requests_app =
      s.swap_requests_app ++
        [{ id := s.swap_requests_seq, from_user_id := from_user_id, to_user_id := to_user_id,
           offered_skill := offered_skill, wanted_skill := wanted_skill, message := message,
           status := "pending", created_at := now, updated_at := now }] ∧
    (∀ r ∈ s.swap_requests_app, r.id ≠ s.swap_requests_seq) ∧
    (postSwapRequests s
        { from_user_id := some from_user_id, to_user_id := some to_user_id,
          offered_skill := some offered_skill, wanted_skill := some wanted_skill,
          message := message } now).2.notifications_app =
      s.notifications_app ++
        [{ id := s.notifications_seq, user_id := to_user_id, type := "swap_request",
           title := "New Swap Request",
           message := "You have a new swap request from " ++ toString from_user_id,
           related_id := s.swap_requests_seq, is_read := false, created_at := now }] ∧
    (postSwapRequests s
        { from_user_id := some from_user_id, to_user_id := some to_user_id,
          offered_skill := some offered_skill, wanted_skill := some wanted_skill,
          message := message } now).2.chat_messages = s.chat_messages ∧
    (postSwapRequests s
        { from_user_id := some from_user_id, to_user_id := some to_user_id,
          offered_skill := some offered_skill, wanted_skill := some wanted_skill,
          message := message } now).2.users = s.users := by
  have hguard : ¬(from_user_id = 0 ∨ to_user_id = 0 ∨ offered_skill = "" ∨ wanted_skill = "") := by
    rintro (h | h | h | h)
    exacts [hf h, ht h, ho h, hw h]
  have hins := insertSwapRequest_ok s from_user_id to_user_id offered_skill wanted_skill
    message now hwf hfu htu
  have hwf1 := insertSwapRequest_wf s from_user_id to_user_id offered_skill wanted_skill
    message now hwf
  rw [hins] at hwf1
  have hnot := insertNotification_ok _ to_user_id "swap_request" "New Swap Request"
    ("You have a new swap request from " ++ toString from_user_id) s.swap_requests_seq now
    hwf1 htu
  have hfresh : ∀ r ∈ s.swap_requests_app, r.id ≠ s.swap_requests_seq := by
    intro r hr
    have := hwf.1 r hr
    omega
  simp only [postSwapRequests, if_neg hguard, hins, hnot]
  exact ⟨trivial, trivial, hfresh, trivial, trivial, trivial⟩

/-- Witness of C1: users 1 and 2, request from 1 to 2. -/
theorem postSwapRequests_valid_witness :
    (postSwapRequests (Store.init [1, 2])
        { from_user_id := some 1, to_user_id := some 2, offered_skill := some "JS",
          wanted_skill := some "Design", message := none } 10).2.swap_requests_app =
      [{ id := 1, from_user_id := 1, to_user_id := 2, offered_skill := "JS",
         wanted_skill := "Design", message := none, status := "pending",
         created_at := 10, updated_at := 10 }] :=
  (postSwapRequests_valid (Store.init [1, 2]) 1 2 "JS" "Design" none 10
    (by decide) (by decide) (by decide) (by decide) (by decide) (by decide) (by decide)).2.1

/-- C9 (as stated, refuted): a Create in which no required field is absent still fails
with 400 'Missing required fields' when `from_user_id` is the number 0. -/
theorem postSwapRequests_rejects_zero_id :
    (some (0 : Int)).isSome = true ∧ (some (2 : Int)).isSome = true ∧
    (some "JS").isSome = true ∧ (some "Design").isSome = true ∧
    postSwapRequests (Store.init [1, 2])
        { from_user_id := some 0, to_user_id := some 2, offered_skill := some "JS",
          wanted_skill := some "Design", message := some "hello" } 0 =
      (errorResponse 400 "Missing required fields", Store.init [1, 2]) := by
  decide

/-- C9 (amended): for every store state and every Create input, the answer is 400
'Missing required fields' exactly when one of `from_user_id`, `to_user_id`,
`offered_skill`, `wanted_skill` is absent, the number 0 or the empty string, whatever
`message` is; the status is 400 in no other case; and when the answer is that
validation error the store is unchanged. -/
theorem postSwapRequests_validation (s : Store) (body : CreateInput) (now : Nat) :
    ((postSwapRequests s body now).1 = errorResponse 400 "Missing required fields" ↔
      missingRequiredFields body) ∧
    ((postSwapRequests s body now).1.status = 400 ↔ missingRequiredFields body) ∧
    ((postSwapRequests s body now).1.status = 400 → (postSwapRequests s body now).2 = s) := by
  have key : (missingRequiredFields body ∧
        postSwapRequests s body now = (errorResponse 400 "Missing required fields", s)) ∨
      (¬missingRequiredFields body ∧ (postSwapRequests s body now).1.status ≠ 400) := by
    obtain ⟨f, t, o, w, m⟩ := body
    unfold postSwapRequests missingRequiredFields
    rcases f with _ | f
    · left; simp
    rcases t with _ | t
    · left; simp
    rcases o with _ | o
    · left; simp
    rcases w with _ | w
    · left; simp
    by_cases hg : f = 0 ∨ t = 0 ∨ o = "" ∨ w = ""
    · left
      simp only [if_pos hg, and_true]
      simpa using hg
    · right
      simp only [if_neg hg]
      constructor
      · simpa using hg
      · split <;> simp [errorResponse]
  rcases key with ⟨hm, he⟩ | ⟨hm, hs⟩
  · rw [he]
    exact ⟨⟨fun _ => hm, fun _ => rfl⟩, ⟨fun _ => hm, fun _ => rfl⟩, fun _ => rfl⟩
  · refine ⟨⟨fun h => ?_, fun h => absurd h hm⟩, ⟨fun h => absurd h hs, fun h => absurd h hm⟩,
      fun h => absurd h hs⟩
    rw [h] at hs
    exact absurd rfl hs

/-- Witness of C9: an absent `wanted_skill`. -/
theorem postSwapRequests_validation_witness :
    (postSwapRequests (Store.init [1, 2])
        { from_user_id := some 1, to_user_id := some 2, offered_skill := some "JS",
          wanted_skill := none, message := none } 0).2 = Store.init [1, 2] :=
  (postSwapRequests_validation (Store.init [1, 2])
    { from_user_id := some 1, to_user_id := some 2, offered_skill := some "JS",
      wanted_skill := none, message := none } 0).2.2 (by decide)

/-! ## Transition -/

theorem updateSwapRequestStatus_mem (s : Store) (status : String) (now : Nat)
    (r : SwapRequest) (hr : r ∈ s.swap_requests_app) :
    { r with status := status, updated_at := now } ∈
      (updateSwapRequestStatus s status r.id now).swap_requests_app := by
  unfold updateSwapRequestStatus
  simp only [List.mem_map]
  exact ⟨r, hr, by simp⟩

/-- C2: on a store that satisfies its schema and holds a pending SwapRequest `r`, a
Transition of `r.id` to `accepted` or `rejected` answers 200 with success, sets the status
of the request with that id to the new status (refreshing `updated_at`) and leaves every
other request as it was, keeps the chat messages, and appends exactly one Notification:
unread, of type `swap_response`, for `r.from_user_id`, with `related_id` the request's
id, worded "Swap Request Accepted" / "Your swap request has been accepted!" for
`accepted` and "Swap Request Rejected" / "Your swap request has been rejected." for
`rejected`. -/
theorem putSwapRequest_pending (s : Store) (r : SwapRequest) (newStatus : String) (now : Nat)
    (hwf : s.wf) (hr : r ∈ s.swap_requests_app) (hp : r.status = "pending")
    (hs : newStatus = "accepted" ∨ newStatus = "rejected") :
    (putSwapRequest s r.id (some newStatus) now).1 =
      { status := 200,
        body := [("success", .bool true),
                 ("message", .str ("Swap request " ++ newStatus))] } ∧
    (putSwapRequest s r.id (some newStatus) now).2.swap_requests_app =
      s.swap_requests_app.map (fun x =>
        if x.id = r.id then { x with status := newStatus, updated_at := now } else x) ∧
    { r with status := newStatus, updated_at := now } ∈
      (putSwapRequest s r.id (some newStatus) now).2.swap_requests_app ∧
    (∀ x ∈ (putSwapRequest s r.id (some newStatus) now).2.swap_requests_app,
      x.id = r.id → x.status = newStatus) ∧
    (putSwapRequest s r.id (some newStatus) now).2.chat_messages = s.chat_messages ∧
    (putSwapRequest s r.id (some newStatus) now).2.notifications_app =
      s.notifications_app ++
        [{ id := s.notifications_seq, user_id := r.from_user_id, type := "swap_response",
           title := if newStatus = "accepted" then "Swap Request Accepted"
                    else "Swap Request Rejected",
           message := if newStatus = "accepted" then "Your swap request has been accepted!"
                      else "Your swap request has been rejected.",
           related_id := r.id, is_read := false, created_at := now }] := by
  have _ := hp
  have hwf1 := updateSwapRequestStatus_wf s newStatus r.id now hwf
  have hmem := updateSwapRequestStatus_mem s newStatus now r hr
  have hget := getSwapRequest_of_mem _ _ hwf1 hmem
  have hnot := insertNotification_ok (updateSwapRequestStatus s newStatus r.id now)
    r.from_user_id "swap_response"
    (if newStatus = "accepted" then "Swap Request Accepted" else "Swap Request Rejected")
    (if newStatus = "accepted" then "Your swap request has been accepted!"
      else "Your swap request has been rejected.") r.id now hwf1 (hwf.2.2.2.2.2.2.1 r hr).1
  simp only at hget
  simp only [putSwapRequest, if_pos hs, hget, hnot]
  refine ⟨trivial, rfl, hmem, ?_, rfl, rfl⟩
  intro x hx hid
  simp only [updateSwapRequestStatus, List.mem_map] at hx
  obtain ⟨x0, _, rfl⟩ := hx
  by_cases hc : x0.id = r.id
  · simp [hc]
  · simp [hc] at hid

/-- Witness of C2: the request created from user 1 to user 2 is accepted. -/
theorem putSwapRequest_pending_witness :
    (putSwapRequest
        (postSwapRequests (Store.init [1, 2])
          { from_user_id := some 1, to_user_id := some 2, offered_skill := some "JS",
            wanted_skill := some "Design", message := none } 10).2
        1 (some "accepted") 11).2.notifications_app =
      [{ id := 1, user_id := 2, type := "swap_request", title := "New Swap Request",
         message := "You have a new swap request from 1", related_id := 1,
         is_read := false, created_at := 10 },
       { id := 2, user_id := 1, type := "swap_response", title := "Swap Request Accepted",
         message := "Your swap request has been accepted!", related_id := 1,
         is_read := false, created_at := 11 }] :=
  (putSwapRequest_pending
    (postSwapRequests (Store.init [1, 2])
      { from_user_id := some 1, to_user_id := some 2, offered_skill := some "JS",
        wanted_skill := some "Design", message := none } 10).2
    { id := 1, from_user_id := 1, to_user_id := 2, offered_skill := "JS",
      wanted_skill := "Design", message := none, status := "pending",
      created_at := 10, updated_at := 10 }
    "accepted" 11 (by decide) (by decide) (by decide) (by decide)).2.2.2.2.2

/-- C3: for every store state, every id and every status that is not exactly `accepted`
or `rejected` (an absent status included), Transition answers 400 with the invalid-status
error and returns the store unchanged. -/
theorem putSwapRequest_invalid_status (s : Store) (id : Int) (status : Option String)
    (now : Nat) (ha : status ≠ some "accepted") (hr : status ≠ some "rejected") :
    putSwapRequest s id status now =
      (errorResponse 400 "Invalid status. Must be \"accepted\" or \"rejected\"", s) := by
  unfold putSwapRequest
  cases status with
  | none => rfl
  | some st =>
    have hg : ¬(st = "accepted" ∨ st = "rejected") := by
      rintro (h | h)
      · exact ha (by rw [h])
      · exact hr (by rw [h])
    simp only [if_neg hg]

/-- Witness of C3: status `cancelled` on a pending request leaves it pending. -/
theorem putSwapRequest_invalid_status_witness :
    putSwapRequest
        (postSwapRequests (Store.init [1, 2])
          { from_user_id := some 1, to_user_id := some 2, offered_skill := some "JS",
            wanted_skill := some "Design", message := none } 10).2
        1 (some "cancelled") 11 =
      (errorResponse 400 "Invalid status. Must be \"accepted\" or \"rejected\"",
       (postSwapRequests (Store.init [1, 2])
          { from_user_id := some 1, to_user_id := some 2, offered_skill := some "JS",
            wanted_skill := some "Design", message := none } 10).2) :=
  putSwapRequest_invalid_status _ 1 (some "cancelled") 11 (by decide) (by decide)

/-- C7 (the code at the failing input): on the store with users 1 and 2 and no swap
request at all, Transition of id 42 to `accepted` answers 200 with success and changes
nothing, where the claim requires a NotFoundError. -/
theorem putSwapRequest_missing_reports_success :
    (∀ r ∈ (Store.init [1, 2]).swap_requests_app, r.id ≠ 42) ∧
    putSwapRequest (Store.init [1, 2]) 42 (some "accepted") 5 =
      ({ status := 200,
         body := [("success", .bool true), ("message", .str "Swap request accepted")] },
       Store.init [1, 2]) := by
  decide

/-! ## PostMessage -/

/-- C4 (as stated, refuted): request 1 is pending and the three inputs are present, yet
with `sender_id` the number 0 the call is answered with the validation error 'Missing
required fields', not with the chat-unavailable error. -/
theorem postChat_pending_zero_sender :
    (postSwapRequests (Store.init [1, 2])
        { from_user_id := some 1, to_user_id := some 2, offered_skill := some "JS",
          wanted_skill := some "Design", message := none } 10).2.swap_requests_app.map
      (fun r => (r.id, r.status)) = [(1, "pending")] ∧
    (postChat
        (postSwapRequests (Store.init [1, 2])
          { from_user_id := some 1, to_user_id := some 2, offered_skill := some "JS",
            wanted_skill := some "Design", message := none } 10).2
        1 { sender_id := some 0, receiver_id := some 1, message := some "hi" } 11).1 =
      errorResponse 400 "Missing required fields" ∧
    (postChat
        (postSwapRequests (Store.init [1, 2])
          { from_user_id := some 1, to_user_id := some 2, offered_skill := some "JS",
            wanted_skill := some "Design", message := none } 10).2
        1 { sender_id := some 0, receiver_id := some 1, message := some "hi" } 11).1 ≠
      errorResponse 400 "Chat is only available for accepted swap requests" := by
  decide

/-- C4 (amended): on a store that satisfies its schema, a PostMessage whose `sender_id`
and `receiver_id` are non-zero and whose `message` is non-empty, for a SwapRequest that
exists with status `pending` or `rejected`, answers 400 'Chat is only available for
accepted swap requests' and returns the store unchanged, so no ChatMessage and no
Notification is created. -/
theorem postChat_not_accepted (s : Store) (r : SwapRequest) (sender_id receiver_id : Int)
    (message : String) (now : Nat) (hwf : s.wf) (hr : r ∈ s.swap_requests_app)
    (hst : r.status = "pending" ∨ r.status = "rejected")
    (hs : sender_id ≠ 0) (hrc : receiver_id ≠ 0) (hm : message ≠ "") :
    postChat s r.id
        { sender_id := some sender_id, receiver_id := some receiver_id,
          message := some message } now =
      (errorResponse 400 "Chat is only available for accepted swap requests", s) := by
  have hguard : ¬(sender_id = 0 ∨ receiver_id = 0 ∨ message = "") := by
    rintro (h | h | h)
    exacts [hs h, hrc h, hm h]
  have hget := getSwapRequest_of_mem s r hwf hr
  have hne : r.status ≠ "accepted" := by
    rcases hst with h | h <;> rw [h] <;> decide
  simp only [postChat, if_neg hguard, hget, if_pos hne]

/-- Witness of C4: a message on the pending request 1. -/
theorem postChat_not_accepted_witness :
    postChat
        (postSwapRequests (Store.init [1, 2])
          { from_user_id := some 1, to_user_id := some 2, offered_skill := some "JS",
            wanted_skill := some "Design", message := none } 10).2
        1 { sender_id := some 2, receiver_id := some 1, message := some "hi" } 11 =
      (errorResponse 400 "Chat is only available for accepted swap requests",
       (postSwapRequests (Store.init [1, 2])
          { from_user_id := some 1, to_user_id := some 2, offered_skill := some "JS",
            wanted_skill := some "Design", message := none } 10).2) :=
  postChat_not_accepted
    (postSwapRequests (Store.init [1, 2])
      { from_user_id := some 1, to_user_id := some 2, offered_skill := some "JS",
        wanted_skill := some "Design", message := none } 10).2
    { id := 1, from_user_id := 1, to_user_id := 2, offered_skill := "JS",
      wanted_skill := "Design", message := none, status := "pending",
      created_at := 10, updated_at := 10 }
    2 1 "hi" 11 (by decide) (by decide) (by decide) (by decide) (by decide) (by decide)

/-- C5 (as stated, refuted): request 1 is accepted and the three inputs are present, yet
the call fails with 500 and persists no message when `sender_id` is 9, which is no user's
id, and fails with 400 and persists no message when `message` is the empty string. -/
theorem postChat_accepted_present_not_sufficient :
    acceptedStore.wf ∧
    acceptedStore.swap_requests_app.map (fun r => (r.id, r.status)) = [(1, "accepted")] ∧
    (postChat acceptedStore 1
        { sender_id := some 9, receiver_id := some 1, message := some "hi" } 12).1.status
      = 500 ∧
    (postChat acceptedStore 1
        { sender_id := some 9, receiver_id := some 1, message := some "hi" } 12).2.chat_messages
      = [] ∧
    postChat acceptedStore 1
        { sender_id := some 2, receiver_id := some 1, message := some "" } 12 =
      (errorResponse 400 "Missing required fields", acceptedStore) := by
  decide

/-- C5 (amended): on a store that satisfies its schema, a PostMessage whose `sender_id`
and `receiver_id` are non-zero ids of existing users and whose `message` is non-empty,
for a SwapRequest with status `accepted`, answers 200 with the generated message id,
appends exactly one ChatMessage with a fresh id and the given swap_request_id, sender_id,
receiver_id and message, appends exactly one Notification of type `chat_message` for
`receiver_id` whose `related_id` is the new message's id, and leaves the swap requests
as they were. -/
theorem postChat_accepted (s : Store) (r : SwapRequest) (sender_id receiver_id : Int)
    (message : String) (now : Nat) (hwf : s.wf) (hr : r ∈ s.swap_requests_app)
    (hst : r.status = "accepted")
    (hs : sender_id ≠ 0) (hrc : receiver_id ≠ 0) (hm : message ≠ "")
    (hsu : sender_id ∈ s.users) (hru : receiver_id ∈ s.users) :
    (postChat s r.id
        { sender_id := some sender_id, receiver_id := some receiver_id,
          message := some message } now).1 =
      { status := 200,
        body := [("success", .bool true), ("id", .num s.chat_messages_seq),
                 ("message", .str "Message sent successfully")] } ∧
    (postChat s r.id
        { sender_id := some sender_id, receiver_id := some receiver_id,
          message := some message } now).2.chat_messages =
      s.chat_messages ++
        [{ id := s.chat_messages_seq, swap_request_id := r.id, sender_id := sender_id,
           receiver_id := receiver_id, message := message, created_at := now }] ∧
    (∀ m ∈ s.chat_messages, m.id ≠ s.chat_messages_seq) ∧
    (postChat s r.id
        { sender_id := some sender_id, receiver_id := some receiver_id,
          message := some message } now).2.notifications_app =
      s.notifications_app ++
        [{ id := s.notifications_seq, user_id := receiver_id, type := "chat_message",
           title := "New Message",
           message := "You have a new message from user " ++ toString sender_id,
           related_id := s.chat_messages_seq, is_read := false, created_at := now }] ∧
    (postChat s r.id
        { sender_id := some sender_id, receiver_id := some receiver_id,
          message := some message } now).2.swap_requests_app = s.swap_requests_app := by
  have hguard : ¬(sender_id = 0 ∨ receiver_id = 0 ∨ message = "") := by
    rintro (h | h | h)
    exacts [hs h, hrc h, hm h]
  have hget := getSwapRequest_of_mem s r hwf hr
  have hacc : ¬(r.status ≠ "accepted") := not_not.2 hst
  have hins := insertChatMessage_ok s r.id sender_id receiver_id message now hwf
    (List.mem_map_of_mem (·.id) hr) hsu hru
  have hwf1 := insertChatMessage_wf s r.id sender_id receiver_id message now hwf
  rw [hins] at hwf1
  have hnot := insertNotification_ok _ receiver_id "chat_message" "New Message"
    ("You have a new message from user " ++ toString sender_id) s.chat_messages_seq now
    hwf1 hru
  have hfresh : ∀ m ∈ s.chat_messages, m.id ≠ s.chat_messages_seq := by
    intro m hmem
    have := hwf.2.2.1 m hmem
    omega
  simp only [postChat, if_neg hguard, hget, if_neg hacc, hins, hnot]
  exact ⟨trivial, trivial, hfresh, trivial, trivial⟩

/-- Witness of C5: user 2 writes to user 1 on the accepted request 1. -/
theorem postChat_accepted_witness :
    (postChat acceptedStore 1
        { sender_id := some 2, receiver_id := some 1, message := some "hi" } 12).2.chat_messages =
      [{ id := 1, swap_request_id := 1, sender_id := 2, receiver_id := 1, message := "hi",
         created_at := 12 }] :=
  (postChat_accepted acceptedStore
    { id := 1, from_user_id := 1, to_user_id := 2, offered_skill := "JS",
      wanted_skill := "Design", message := none, status := "accepted",
      created_at := 10, updated_at := 11 }
    2 1 "hi" 12 (by decide) (by decide) (by decide) (by decide) (by decide) (by decide)
    (by decide) (by decide)).2.1

/-- PostMessage, once the lookup has accepted the id, for an id that matches no request and a
body that passes the guard: 404 and the store unchanged. -/
theorem postChat_unknown_request (s : Store) (swapRequestId sender_id receiver_id : Int)
    (message : String) (now : Nat) (hnone : ∀ r ∈ s.swap_requests_app, r.id ≠ swapRequestId)
    (hs : sender_id ≠ 0) (hrc : receiver_id ≠ 0) (hm : message ≠ "") :
    postChat s swapRequestId
        { sender_id := some sender_id, receiver_id := some receiver_id,
          message := some message } now =
      (errorResponse 404 "Swap request not found", s) := by
  have hguard : ¬(sender_id = 0 ∨ receiver_id = 0 ∨ message = "") := by
    rintro (h | h | h)
    exacts [hs h, hrc h, hm h]
  have hget := getSwapRequest_none s swapRequestId hnone
  simp only [postChat, if_neg hguard, hget]

/-! ## Read state of notifications -/

theorem countUnread_readAll (s : Store) (userId : Int) :
    countUnread (updateNotificationsReadAll s userId) userId = 0 := by
  unfold countUnread updateNotificationsReadAll
  rw [List.length_eq_zero, List.filter_eq_nil_iff]
  intro n hn
  simp only [List.mem_map] at hn
  obtain ⟨n0, _, rfl⟩ := hn
  by_cases hc : n0.user_id = userId <;> simp [hc]

/-- After the UPDATE of MarkAllRead for a user the count of that user's unread
notifications is 0. -/
theorem getUnreadCount_after_readAll (s : Store) (userId : Int) :
    (putNotificationsReadAll s userId).1 = { status := 200, body := [("success", .bool true)] } ∧
    getUnreadCount (putNotificationsReadAll s userId).2 userId =
      { status := 200, body := [("count", .num 0)] } := by
  refine ⟨rfl, ?_⟩
  unfold getUnreadCount putNotificationsReadAll
  simp only [countUnread_readAll]
  rfl

/-! ## Status of a request along the operations -/

theorem insertNotification_requests (s : Store) (user_id : Int) (type title message : String)
    (related_id : Int) (now : Nat) :
    (insertNotification s user_id type title message related_id now).2.swap_requests_app =
      s.swap_requests_app := by
  unfold insertNotification
  simp only
  split_ifs <;> rfl

theorem insertChatMessage_requests (s : Store) (swap_request_id sender_id receiver_id : Int)
    (message : String) (now : Nat) :
    (insertChatMessage s swap_request_id sender_id receiver_id message now).2.swap_requests_app =
      s.swap_requests_app := by
  unfold insertChatMessage
  simp only
  split_ifs <;> rfl

theorem insertSwapRequest_requests (s : Store) (from_user_id to_user_id : Int)
    (offered_skill wanted_skill : String) (message : Option String) (now : Nat) :
    (insertSwapRequest s from_user_id to_user_id offered_skill wanted_skill message
        now).2.swap_requests_app = s.swap_requests_app ∨
    (insertSwapRequest s from_user_id to_user_id offered_skill wanted_skill message
        now).2.swap_requests_app =
      s.swap_requests_app ++
        [{ id := s.swap_requests_seq, from_user_id := from_user_id, to_user_id := to_user_id,
           offered_skill := offered_skill, wanted_skill := wanted_skill, message := message,
           status := "pending", created_at := now, updated_at := now }] := by
  unfold insertSwapRequest
  simp only
  split_ifs
  · exact Or.inl rfl
  · exact Or.inr rfl
  · exact Or.inl rfl
  · exact Or.inl rfl

/-- Create keeps the table of requests or appends one pending request under the next id. -/
theorem postSwapRequests_requests (s : Store) (body : CreateInput) (now : Nat) :
    (postSwapRequests s body now).2.swap_requests_app = s.swap_requests_app ∨
    ∃ r : SwapRequest, r.id = s.swap_requests_seq ∧ r.status = "pending" ∧
      (postSwapRequests s body now).2.swap_requests_app = s.swap_requests_app ++ [r] := by
  have hi := fun a b c d => insertSwapRequest_requests s a b c d body.message now
  unfold postSwapRequests
  split
  · split_ifs
    · exact Or.inl rfl
    · split
      · next heq =>
        rcases hi _ _ _ _ with h | h
        · rw [heq] at h; exact Or.inl h
        · rw [heq] at h; exact Or.inr ⟨_, rfl, rfl, h⟩
      · next heq =>
        simp only [insertNotification_requests]
        rcases hi _ _ _ _ with h | h
        · rw [heq] at h; exact Or.inl h
        · rw [heq] at h; exact Or.inr ⟨_, rfl, rfl, h⟩
  · exact Or.inl rfl

/-- PostMessage never writes the table of requests. -/
theorem postChat_requests (s : Store) (swapRequestId : Int) (body : ChatInput) (now : Nat) :
    (postChat s swapRequestId body now).2.swap_requests_app = s.swap_requests_app := by
  have hi := fun a b c => insertChatMessage_requests s swapRequestId a b c now
  unfold postChat
  split
  · split_ifs
    · rfl
    · split
      · rfl
      · split_ifs
        · rfl
        · split
          · next heq =>
            exact (congrArg (fun p => p.2.swap_requests_app) heq).symm.trans (hi _ _ _)
          · next heq =>
            simp only [insertNotification_requests]
            exact (congrArg (fun p => p.2.swap_requests_app) heq).symm.trans (hi _ _ _)
  · rfl

/-- Transition keeps the table of requests, or it was given `accepted` or `rejected` and
sets that status on the rows with the given id. -/
theorem putSwapRequest_requests (s : Store) (id : Int) (status : Option String) (now : Nat) :
    (putSwapRequest s id status now).2.swap_requests_app = s.swap_requests_app ∨
    ∃ st : String, status = some st ∧ (st = "accepted" ∨ st = "rejected") ∧
      (putSwapRequest s id status now).2.swap_requests_app =
        s.swap_requests_app.map (fun r =>
          if r.id = id then { r with status := st, updated_at := now } else r) := by
  unfold putSwapRequest
  split
  · next st =>
    by_cases hst : st = "accepted" ∨ st = "rejected"
    · rw [if_pos hst]
      refine Or.inr ⟨st, rfl, hst, ?_⟩
      dsimp only
      split
      · rw [insertNotification_requests]; rfl
      · rfl
    · rw [if_neg hst]
      exact Or.inl rfl
  · exact Or.inl rfl

theorem eq_of_id_eq (l : List SwapRequest) (hn : (l.map (·.id)).Nodup) (a b : SwapRequest)
    (ha : a ∈ l) (hb : b ∈ l) (h : a.id = b.id) : a = b :=
  List.inj_on_of_nodup_map hn ha hb h

/-- One operation on a state that satisfies the schema: a request that was stored is
still stored under its id, and the row with its id has the old status unless the
operation is a Transition of that id to `accepted` or `rejected`, in which case it has
that status. -/
theorem handle_status (s : Store) (op : Op) (hwf : s.wf) (r : SwapRequest)
    (hr : r ∈ s.swap_requests_app) :
    (∃ r' ∈ (handle s op).2.swap_requests_app, r'.id = r.id) ∧
    ∀ r' ∈ (handle s op).2.swap_requests_app, r'.id = r.id →
      r'.status = r.status ∨
      ((r'.status = "accepted" ∨ r'.status = "rejected") ∧
        ∃ now, op = .transition r.id (some r'.status) now) := by
  have hnd := hwf.2.2.2.1
  have same : (handle s op).2.swap_requests_app = s.swap_requests_app →
      (∃ r' ∈ (handle s op).2.swap_requests_app, r'.id = r.id) ∧
      ∀ r' ∈ (handle s op).2.swap_requests_app, r'.id = r.id →
        r'.status = r.status ∨
        ((r'.status = "accepted" ∨ r'.status = "rejected") ∧
          ∃ now, op = .transition r.id (some r'.status) now) := by
    intro h
    rw [h]
    refine ⟨⟨r, hr, rfl⟩, fun r' hr' hid => Or.inl ?_⟩
    rw [eq_of_id_eq _ hnd r' r hr' hr hid]
  cases op with
  | create body now =>
    rcases postSwapRequests_requests s body now with h | ⟨x, hxid, _, h⟩
    · exact same h
    · simp only [handle]
      rw [h]
      refine ⟨⟨r, List.mem_append_left _ hr, rfl⟩, fun r' hr' hid => Or.inl ?_⟩
      simp only [List.mem_append, List.mem_singleton] at hr'
      rcases hr' with hr' | rfl
      · rw [eq_of_id_eq _ hnd r' r hr' hr hid]
      · have := hwf.1 r hr
        omega
  | transition id status now =>
    rcases putSwapRequest_requests s id status now with h | ⟨st, rfl, hst, h⟩
    · exact same h
    · simp only [handle]
      rw [h]
      constructor
      · refine ⟨_, List.mem_map_of_mem _ hr, ?_⟩
        by_cases hc : r.id = id <;> simp [hc]
      · intro r' hr' hid
        simp only [List.mem_map] at hr'
        obtain ⟨x, hx, rfl⟩ := hr'
        by_cases hc : x.id = id
        · simp only [if_pos hc] at hid ⊢
          exact Or.inr ⟨hst, now, by rw [← hid, hc]⟩
        · simp only [if_neg hc] at hid ⊢
          exact Or.inl (by rw [eq_of_id_eq _ hnd x r hx hr hid])
  | postMessage swapRequestId body now => exact same (postChat_requests s swapRequestId body now)
  | markRead id => exact same rfl
  | markAllRead userId => exact same rfl

/-- C6 (as stated, refuted): from the store with users 1 and 2, Create, Transition of the
new request to `accepted` and a second Transition of it to `rejected` are all answered
with success, and the second Transition changes the status of request 1 from `accepted`
to `rejected`. -/
theorem resolved_request_changes_status :
    Reachable [1, 2] acceptedStore ∧
    acceptedStore.swap_requests_app.map (fun r => (r.id, r.status)) = [(1, "accepted")] ∧
    (handle acceptedStore (.transition 1 (some "rejected") 12)).1.status = 200 ∧
    (handle acceptedStore (.transition 1 (some "rejected") 12)).2.swap_requests_app.map
      (fun r => (r.id, r.status)) = [(1, "rejected")] := by
  refine ⟨?_, by decide, by decide, by decide⟩
  exact Reachable.step (.transition 1 (some "accepted") 11)
    (Reachable.step
      (.create { from_user_id := some 1, to_user_id := some 2, offered_skill := some "JS",
                 wanted_skill := some "Design", message := none } 10)
      Reachable.init)

/-- A Transition to `accepted` or `rejected` is answered with success and sets that status
on the rows with the given id, whatever their status was. -/
theorem putSwapRequest_valid_requests (s : Store) (id : Int) (st : String) (now : Nat)
    (hst : st = "accepted" ∨ st = "rejected") :
    (putSwapRequest s id (some st) now).1.status = 200 ∧
    (putSwapRequest s id (some st) now).2.swap_requests_app =
      s.swap_requests_app.map (fun r =>
        if r.id = id then { r with status := st, updated_at := now } else r) := by
  unfold putSwapRequest
  simp only [if_pos hst]
  refine ⟨trivial, ?_⟩
  split
  · rw [insertNotification_requests]; rfl
  · rfl

/-- C6 (amended): in every state reachable by Create, Transition, PostMessage, MarkRead
and MarkAllRead from the store that holds only users, every SwapRequest has status
`pending`, `accepted` or `rejected`; after any further operation each stored request is
still stored under its id, and its status is the old one unless the operation is a
Transition of that id to `accepted` or `rejected`; every such Transition is answered with
success and sets the status given, whatever the current status is (`pending`, `accepted`
or `rejected`); so a request that is `accepted` or `rejected` never becomes `pending`
again, but a later Transition moves it between `accepted` and `rejected`. -/
theorem status_changes_only_by_transition (users : List Int) (s : Store) (op : Op)
    (hreach : Reachable users s) :
    (∀ r ∈ s.swap_requests_app,
      r.status = "pending" ∨ r.status = "accepted" ∨ r.status = "rejected") ∧
    (∀ r ∈ s.swap_requests_app,
      (∃ r' ∈ (handle s op).2.swap_requests_app, r'.id = r.id) ∧
      ∀ r' ∈ (handle s op).2.swap_requests_app, r'.id = r.id →
        (r'.status = r.status ∨
          ((r'.status = "accepted" ∨ r'.status = "rejected") ∧
            ∃ now, op = .transition r.id (some r'.status) now)) ∧
        (r.status ≠ "pending" → r'.status ≠ "pending")) ∧
    (∀ r ∈ s.swap_requests_app, ∀ (st : String) (now : Nat),
      st = "accepted" ∨ st = "rejected" →
      (handle s (.transition r.id (some st) now)).1.status = 200 ∧
      (∃ r' ∈ (handle s (.transition r.id (some st) now)).2.swap_requests_app,
        r'.id = r.id) ∧
      ∀ r' ∈ (handle s (.transition r.id (some st) now)).2.swap_requests_app,
        r'.id = r.id → r'.status = st) ∧
    (∀ r ∈ s.swap_requests_app,
      (¬∃ st now, (st = "accepted" ∨ st = "rejected") ∧ op = .transition r.id (some st) now) →
      ∀ r' ∈ (handle s op).2.swap_requests_app, r'.id = r.id → r'.status = r.status) := by
  refine ⟨?_, ?_, ?_, ?_⟩
  · clear op
    induction hreach with
    | init => intro r hr; cases hr
    | @step s0 op _ ih =>
      intro r hr
      cases op with
      | create body now =>
        rcases postSwapRequests_requests s0 body now with h | ⟨x, _, hxs, h⟩
        · exact ih r (h ▸ hr)
        · simp only [handle] at hr
          rw [h] at hr
          simp only [List.mem_append, List.mem_singleton] at hr
          rcases hr with hr | rfl
          · exact ih r hr
          · exact Or.inl hxs
      | transition id status now =>
        rcases putSwapRequest_requests s0 id status now with h | ⟨st, rfl, hst, h⟩
        · exact ih r (h ▸ hr)
        · simp only [handle] at hr
          rw [h] at hr
          simp only [List.mem_map] at hr
          obtain ⟨x, hx, rfl⟩ := hr
          by_cases hc : x.id = id
          · simp only [if_pos hc]
            exact Or.inr hst
          · simp only [if_neg hc]
            exact ih x hx
      | postMessage swapRequestId body now =>
        exact ih r (postChat_requests s0 swapRequestId body now ▸ hr)
      | markRead id => exact ih r hr
      | markAllRead userId => exact ih r hr
  · intro r hr
    obtain ⟨hex, hall⟩ := handle_status s op hreach.wf r hr
    refine ⟨hex, fun r' hr' hid => ⟨hall r' hr' hid, fun hnp => ?_⟩⟩
    rcases hall r' hr' hid with h | ⟨h | h, _⟩
    · rw [h]; exact hnp
    · rw [h]; decide
    · rw [h]; decide
  · intro r hr st now hst
    obtain ⟨hresp, htab⟩ := putSwapRequest_valid_requests s r.id st now hst
    simp only [handle]
    refine ⟨hresp, ?_, ?_⟩
    · rw [htab]
      exact ⟨_, List.mem_map_of_mem _ hr, by simp⟩
    · intro r' hr' hid
      rw [htab] at hr'
      obtain ⟨x, _, rfl⟩ := List.mem_map.1 hr'
      by_cases hc : x.id = r.id
      · simp [hc]
      · simp [hc] at hid
  · intro r hr hnot r' hr' hid
    rcases (handle_status s op hreach.wf r hr).2 r' hr' hid with h | ⟨hv, now, hop⟩
    · exact h
    · exact absurd ⟨r'.status, now, hv, hop⟩ hnot

/-- Witness of C6: on the reachable store whose request 1 is accepted, a second
Transition of request 1 to `rejected` is answered with success and sets `rejected`. -/
theorem status_changes_only_by_transition_witness :
    Reachable [1, 2] acceptedStore ∧
    ((handle acceptedStore (.transition 1 (some "rejected") 12)).1.status = 200 ∧
      (∃ r' ∈ (handle acceptedStore (.transition 1 (some "rejected") 12)).2.swap_requests_app,
        r'.id = 1) ∧
      ∀ r' ∈ (handle acceptedStore (.transition 1 (some "rejected") 12)).2.swap_requests_app,
        r'.id = 1 → r'.status = "rejected") :=
  ⟨Reachable.step (.transition 1 (some "accepted") 11)
      (Reachable.step
        (.create { from_user_id := some 1, to_user_id := some 2, offered_skill := some "JS",
                   wanted_skill := some "Design", message := none } 10)
        Reachable.init),
    (status_changes_only_by_transition [1, 2] acceptedStore (.markRead 1)
      (Reachable.step (.transition 1 (some "accepted") 11)
        (Reachable.step
          (.create { from_user_id := some 1, to_user_id := some 2, offered_skill := some "JS",
                     wanted_skill := some "Design", message := none } 10)
          Reachable.init))).2.2.1
      { id := 1, from_user_id := 1, to_user_id := 2, offered_skill := "JS",
        wanted_skill := "Design", message := none, status := "accepted",
        created_at := 10, updated_at := 11 }
      (by decide) "rejected" 12 (by decide)⟩

/-! ## Unread count and read marks -/

/-- The count query counts the notifications of the user with `is_read` false, and counts 0
when the user has none. -/
theorem getUnreadCount_counts (s : Store) (userId : Int) :
    getUnreadCount s userId =
      { status := 200,
        body := [("count", .num (s.notifications_app.countP
          fun n => decide (n.user_id = userId ∧ n.is_read = false)))] } ∧
    ((∀ n ∈ s.notifications_app, n.user_id ≠ userId) →
      getUnreadCount s userId = { status := 200, body := [("count", .num 0)] }) := by
  have hc : countUnread s userId = s.notifications_app.countP
      (fun n => decide (n.user_id = userId ∧ n.is_read = false)) := by
    unfold countUnread
    rw [List.countP_eq_length_filter]
    congr 1
    apply List.filter_congr
    intro n _
    by_cases h1 : n.user_id = userId <;> cases h2 : n.is_read <;> simp [h1, h2]
  refine ⟨by unfold getUnreadCount; rw [hc], fun hnone => ?_⟩
  have hz : countUnread s userId = 0 := by
    unfold countUnread
    rw [List.length_eq_zero, List.filter_eq_nil_iff]
    intro n hn
    simp [hnone n hn]
  unfold getUnreadCount
  rw [hz]
  rfl

theorem map_id_of_forall {α : Type} (l : List α) (f : α → α) (h : ∀ a ∈ l, f a = a) :
    l.map f = l := by
  induction l with
  | nil => rfl
  | cons a l ih =>
    rw [List.map_cons, h a (List.mem_cons_self a l),
      ih fun b hb => h b (List.mem_cons_of_mem a hb)]

/-- The two UPDATE statements of the read marks, once they have accepted the id: success,
the same store after one and after two runs, and no change when no row matches. -/
theorem read_marks_idempotent_lenient (s : Store) (id userId : Int) :
    (putNotificationRead s id).1 = { status := 200, body := [("success", .bool true)] } ∧
    (putNotificationsReadAll s userId).1 =
      { status := 200, body := [("success", .bool true)] } ∧
    putNotificationRead (putNotificationRead s id).2 id = putNotificationRead s id ∧
    putNotificationsReadAll (putNotificationsReadAll s userId).2 userId =
      putNotificationsReadAll s userId ∧
    ((∀ n ∈ s.notifications_app, n.id ≠ id) → (putNotificationRead s id).2 = s) ∧
    ((∀ n ∈ s.notifications_app, n.user_id ≠ userId) →
      (putNotificationsReadAll s userId).2 = s) := by
  refine ⟨rfl, rfl, ?_, ?_, ?_, ?_⟩
  · unfold putNotificationRead updateNotificationRead
    simp only [List.map_map]
    congr 2
    apply List.map_congr_left
    intro n _
    by_cases hc : n.id = id <;> simp [hc]
  · unfold putNotificationsReadAll updateNotificationsReadAll
    simp only [List.map_map]
    congr 2
    apply List.map_congr_left
    intro n _
    by_cases hc : n.user_id = userId <;> simp [hc]
  · intro h
    unfold putNotificationRead updateNotificationRead
    simp only
    rw [map_id_of_forall _ _ fun n hn => if_neg (h n hn)]
  · intro h
    unfold putNotificationsReadAll updateNotificationsReadAll
    simp only
    rw [map_id_of_forall _ _ fun n hn => if_neg (h n hn)]

/-! ## Result of Create -/

/-- C16 (as stated, refuted): a valid Create with message "hello" is answered with the
three fields `success`, `id` and `message` only; the answer has no `from_user_id`,
`to_user_id`, `offered_skill` or `wanted_skill`, and its `message` is the fixed text, not
the message given. -/
theorem postSwapRequests_does_not_echo :
    (postSwapRequests (Store.init [1, 2])
        { from_user_id := some 1, to_user_id := some 2, offered_skill := some "JS",
          wanted_skill := some "Design", message := some "hello" } 10).1 =
      { status := 200,
        body := [("success", .bool true), ("id", .num 1),
                 ("message", .str "Swap request sent successfully")] } ∧
    (postSwapRequests (Store.init [1, 2])
        { from_user_id := some 1, to_user_id := some 2, offered_skill := some "JS",
          wanted_skill := some "Design", message := some "hello" } 10).1.body.map Prod.fst =
      ["success", "id", "message"] ∧
    (postSwapRequests (Store.init [1, 2])
        { from_user_id := some 1, to_user_id := some 2, offered_skill := some "JS",
          wanted_skill := some "Design", message := some "hello" } 10).1.body.lookup "message" ≠
      some (.str "hello") := by
  decide

/-- C16 (amended): whenever Create is answered 200, exactly one SwapRequest was appended,
it carries the `from_user_id`, `to_user_id`, `offered_skill`, `wanted_skill` and
`message` given, and the answer is `success: true`, `id` the generated id of that
request, and the fixed `message` 'Swap request sent successfully'. -/
theorem postSwapRequests_success_body (s : Store) (body : CreateInput) (now : Nat)
    (h : (postSwapRequests s body now).1.status = 200) :
    ∃ r : SwapRequest,
      (postSwapRequests s body now).2.swap_requests_app = s.swap_requests_app ++ [r] ∧
      r.id = s.swap_requests_seq ∧
      body.from_user_id = some r.from_user_id ∧ body.to_user_id = some r.to_user_id ∧
      body.offered_skill = some r.offered_skill ∧ body.wanted_skill = some r.wanted_skill ∧
      body.message = r.message ∧
      (postSwapRequests s body now).1.body =
        [("success", .bool true), ("id", .num r.id),
         ("message", .str "Swap request sent successfully")] := by
  obtain ⟨f, t, o, w, m⟩ := body
  unfold postSwapRequests at h ⊢
  rcases f with _ | f
  · simp [errorResponse] at h
  rcases t with _ | t
  · simp [errorResponse] at h
  rcases o with _ | o
  · simp [errorResponse] at h
  rcases w with _ | w
  · simp [errorResponse] at h
  by_cases hg : f = 0 ∨ t = 0 ∨ o = "" ∨ w = ""
  · simp [hg, errorResponse] at h
  · simp only [if_neg hg] at h ⊢
    unfold insertSwapRequest at h ⊢
    simp only at h ⊢
    split_ifs at h ⊢ with h1 h2 h3
    · simp [errorResponse] at h
    · simp only [insertNotification_requests]
      exact ⟨_, rfl, rfl, rfl, rfl, rfl, rfl, rfl, rfl⟩
    · simp [errorResponse] at h
    · simp [errorResponse] at h

/-- Witness of C16: the Create from user 1 to user 2 with message "hello". -/
theorem postSwapRequests_success_body_witness :
    ∃ r : SwapRequest,
      (postSwapRequests (Store.init [1, 2])
        { from_user_id := some 1, to_user_id := some 2, offered_skill := some "JS",
          wanted_skill := some "Design", message := some "hello" } 10).2.swap_requests_app =
        (Store.init [1, 2]).swap_requests_app ++ [r] ∧
      r.id = (Store.init [1, 2]).swap_requests_seq ∧
      some 1 = some r.from_user_id ∧ some 2 = some r.to_user_id ∧
      some "JS" = some r.offered_skill ∧ some "Design" = some r.wanted_skill ∧
      some "hello" = r.message ∧
      (postSwapRequests (Store.init [1, 2])
        { from_user_id := some 1, to_user_id := some 2, offered_skill := some "JS",
          wanted_skill := some "Design", message := some "hello" } 10).1.body =
        [("success", .bool true), ("id", .num r.id),
         ("message", .str "Swap request sent successfully")] :=
  postSwapRequests_success_body (Store.init [1, 2])
    { from_user_id := some 1, to_user_id := some 2, offered_skill := some "JS",
      wanted_skill := some "Design", message := some "hello" } 10 (by decide)

/-! ## Notifications are best-effort -/

theorem Store.sameCore.symm {s s' : Store} (h : s.sameCore s') : s'.sameCore s :=
  ⟨h.1.symm, h.2.1.symm, h.2.2.1.symm, h.2.2.2.1.symm, h.2.2.2.2.symm⟩

theorem Store.sameCore.trans {s s' s'' : Store} (h : s.sameCore s') (h' : s'.sameCore s'') :
    s.sameCore s'' :=
  ⟨h.1.trans h'.1, h.2.1.trans h'.2.1, h.2.2.1.trans h'.2.2.1, h.2.2.2.1.trans h'.2.2.2.1,
    h.2.2.2.2.trans h'.2.2.2.2⟩

theorem insertNotification_sameCore (s : Store) (user_id : Int) (type title message : String)
    (related_id : Int) (now : Nat) :
    (insertNotification s user_id type title message related_id now).2.sameCore s := by
  unfold insertNotification
  simp only
  split_ifs <;> exact ⟨rfl, rfl, rfl, rfl, rfl⟩

theorem insertSwapRequest_sameCore (s s' : Store) (from_user_id to_user_id : Int)
    (offered_skill wanted_skill : String) (message : Option String) (now : Nat)
    (h : s.sameCore s') :
    (insertSwapRequest s from_user_id to_user_id offered_skill wanted_skill message now).1 =
      (insertSwapRequest s' from_user_id to_user_id offered_skill wanted_skill message
        now).1 ∧
    (insertSwapRequest s from_user_id to_user_id offered_skill wanted_skill message
        now).2.sameCore
      (insertSwapRequest s' from_user_id to_user_id offered_skill wanted_skill message
        now).2 := by
  obtain ⟨h1, h2, h3, h4, h5⟩ := h
  unfold insertSwapRequest
  simp only [h1, h2, h4]
  split_ifs <;> exact ⟨rfl, rfl, rfl, h3, rfl, h5⟩

theorem insertChatMessage_sameCore (s s' : Store) (swap_request_id sender_id receiver_id : Int)
    (message : String) (now : Nat) (h : s.sameCore s') :
    (insertChatMessage s swap_request_id sender_id receiver_id message now).1 =
      (insertChatMessage s' swap_request_id sender_id receiver_id message now).1 ∧
    (insertChatMessage s swap_request_id sender_id receiver_id message now).2.sameCore
      (insertChatMessage s' swap_request_id sender_id receiver_id message now).2 := by
  obtain ⟨h1, h2, h3, h4, h5⟩ := h
  unfold insertChatMessage
  simp only [h1, h2, h3, h5]
  split_ifs <;> exact ⟨rfl, rfl, rfl, rfl, h4, rfl⟩

theorem updateSwapRequestStatus_sameCore (s s' : Store) (status : String) (id : Int)
    (now : Nat) (h : s.sameCore s') :
    (updateSwapRequestStatus s status id now).sameCore
      (updateSwapRequestStatus s' status id now) := by
  obtain ⟨h1, h2, h3, h4, h5⟩ := h
  exact ⟨h1, by simp only [updateSwapRequestStatus, h2], h3, h4, h5⟩

theorem getSwapRequest_sameCore (s s' : Store) (id : Int) (h : s.sameCore s') :
    getSwapRequest s id = getSwapRequest s' id := by
  unfold getSwapRequest
  rw [h.2.1]

theorem postSwapRequests_sameCore (s s' : Store) (body : CreateInput) (now : Nat)
    (h : s.sameCore s') :
    (postSwapRequests s body now).1 = (postSwapRequests s' body now).1 ∧
    (postSwapRequests s body now).2.sameCore (postSwapRequests s' body now).2 := by
  obtain ⟨f, t, o, w, m⟩ := body
  unfold postSwapRequests
  rcases f with _ | f
  · exact ⟨rfl, h⟩
  rcases t with _ | t
  · exact ⟨rfl, h⟩
  rcases o with _ | o
  · exact ⟨rfl, h⟩
  rcases w with _ | w
  · exact ⟨rfl, h⟩
  by_cases hg : f = 0 ∨ t = 0 ∨ o = "" ∨ w = ""
  · simp only [if_pos hg]
    exact ⟨trivial, h⟩
  · simp only [if_neg hg]
    obtain ⟨e1, e2⟩ := insertSwapRequest_sameCore s s' f t o w m now h
    rcases hi : insertSwapRequest s f t o w m now with ⟨res, s1⟩
    rcases hi' : insertSwapRequest s' f t o w m now with ⟨res', s1'⟩
    rw [hi, hi'] at e1 e2
    simp only at e1 e2
    subst e1
    cases res with
    | error e => exact ⟨rfl, e2⟩
    | ok requestId =>
      exact ⟨rfl, ((insertNotification_sameCore s1 _ _ _ _ _ _).trans e2).trans
        (insertNotification_sameCore s1' _ _ _ _ _ _).symm⟩

theorem putSwapRequest_sameCore (s s' : Store) (id : Int) (status : Option String) (now : Nat)
    (h : s.sameCore s') :
    (putSwapRequest s id status now).1 = (putSwapRequest s' id status now).1 ∧
    (putSwapRequest s id status now).2.sameCore (putSwapRequest s' id status now).2 := by
  unfold putSwapRequest
  cases status with
  | none => exact ⟨rfl, h⟩
  | some st =>
    by_cases hst : st = "accepted" ∨ st = "rejected"
    · simp only [if_pos hst]
      have hu := updateSwapRequestStatus_sameCore s s' st id now h
      have hg := getSwapRequest_sameCore _ _ id hu
      refine ⟨trivial, ?_⟩
      rw [hg]
      cases getSwapRequest (updateSwapRequestStatus s' st id now) id with
      | none => exact hu
      | some request =>
        exact ((insertNotification_sameCore _ _ _ _ _ _ _).trans hu).trans
          (insertNotification_sameCore _ _ _ _ _ _ _).symm
    · simp only [if_neg hst]
      exact ⟨trivial, h⟩

theorem postChat_sameCore (s s' : Store) (swapRequestId : Int) (body : ChatInput) (now : Nat)
    (h : s.sameCore s') :
    (postChat s swapRequestId body now).1 = (postChat s' swapRequestId body now).1 ∧
    (postChat s swapRequestId body now).2.sameCore (postChat s' swapRequestId body now).2 := by
  obtain ⟨sd, rc, m⟩ := body
  unfold postChat
  rcases sd with _ | sd
  · exact ⟨rfl, h⟩
  rcases rc with _ | rc
  · exact ⟨rfl, h⟩
  rcases m with _ | m
  · exact ⟨rfl, h⟩
  by_cases hg : sd = 0 ∨ rc = 0 ∨ m = ""
  · simp only [if_pos hg]
    exact ⟨trivial, h⟩
  · simp only [if_neg hg]
    rw [getSwapRequest_sameCore s s' swapRequestId h]
    cases getSwapRequest s' swapRequestId with
    | none => exact ⟨rfl, h⟩
    | some request =>
      by_cases hs : request.status ≠ "accepted"
      · simp only [if_pos hs]
        exact ⟨trivial, h⟩
      · simp only [if_neg hs]
        obtain ⟨e1, e2⟩ := insertChatMessage_sameCore s s' swapRequestId sd rc m now h
        rcases hi : insertChatMessage s swapRequestId sd rc m now with ⟨res, s1⟩
        rcases hi' : insertChatMessage s' swapRequestId sd rc m now with ⟨res', s1'⟩
        rw [hi, hi'] at e1 e2
        simp only at e1 e2
        subst e1
        cases res with
        | error e => exact ⟨rfl, e2⟩
        | ok lastID =>
          exact ⟨rfl, ((insertNotification_sameCore s1 _ _ _ _ _ _).trans e2).trans
            (insertNotification_sameCore s1' _ _ _ _ _ _).symm⟩

/-- C15: notification emission is best-effort. Whether the insert into `notifications_app`
succeeds depends, besides the users, on that table and its sequence; for Create, Transition
and PostMessage, two stores that differ at most in that table and sequence (so that the
notification insert may succeed in one and fail in the other) give the same answer to the
caller and the same users, swap requests and chat messages afterwards. -/
theorem notification_outcome_irrelevant (s s' : Store) (h : s.sameCore s')
    (createBody : CreateInput) (id : Int) (status : Option String) (swapRequestId : Int)
    (chatBody : ChatInput) (now : Nat) :
    ((postSwapRequests s createBody now).1 = (postSwapRequests s' createBody now).1 ∧
      (postSwapRequests s createBody now).2.sameCore (postSwapRequests s' createBody now).2) ∧
    ((putSwapRequest s id status now).1 = (putSwapRequest s' id status now).1 ∧
      (putSwapRequest s id status now).2.sameCore (putSwapRequest s' id status now).2) ∧
    ((postChat s swapRequestId chatBody now).1 = (postChat s' swapRequestId chatBody now).1 ∧
      (postChat s swapRequestId chatBody now).2.sameCore
        (postChat s' swapRequestId chatBody now).2) :=
  ⟨postSwapRequests_sameCore s s' createBody now h, putSwapRequest_sameCore s s' id status now h,
    postChat_sameCore s s' swapRequestId chatBody now h⟩

/-- Witness of C15: on the store whose notification sequence is stale the insert of the
notification fails, no notification is added, and Create is answered and writes the
request as on the store where the insert succeeds. -/
theorem notification_outcome_irrelevant_witness :
    (insertNotification
        (insertSwapRequest staleNotificationsStore 1 2 "JS" "Design" none 10).2 2
        "swap_request" "New Swap Request" "You have a new swap request from 1" 1 10).1 =
      .error (.uniqueViolation "notifications_app_pkey") ∧
    (postSwapRequests staleNotificationsStore
        { from_user_id := some 1, to_user_id := some 2, offered_skill := some "JS",
          wanted_skill := some "Design", message := none } 10).2.notifications_app =
      staleNotificationsStore.notifications_app ∧
    (postSwapRequests staleNotificationsStore
        { from_user_id := some 1, to_user_id := some 2, offered_skill := some "JS",
          wanted_skill := some "Design", message := none } 10).1.status = 200 ∧
    ((postSwapRequests staleNotificationsStore
        { from_user_id := some 1, to_user_id := some 2, offered_skill := some "JS",
          wanted_skill := some "Design", message := none } 10).1 =
      (postSwapRequests (Store.init [1, 2])
        { from_user_id := some 1, to_user_id := some 2, offered_skill := some "JS",
          wanted_skill := some "Design", message := none } 10).1 ∧
     (postSwapRequests staleNotificationsStore
        { from_user_id := some 1, to_user_id := some 2, offered_skill := some "JS",
          wanted_skill := some "Design", message := none } 10).2.sameCore
      (postSwapRequests (Store.init [1, 2])
        { from_user_id := some 1, to_user_id := some 2, offered_skill := some "JS",
          wanted_skill := some "Design", message := none } 10).2) :=
  ⟨by rfl, by decide, by decide,
    (notification_outcome_irrelevant staleNotificationsStore (Store.init [1, 2]) (by decide)
      { from_user_id := some 1, to_user_id := some 2, offered_skill := some "JS",
        wanted_skill := some "Design", message := none } 1 (some "accepted") 1
      { sender_id := some 2, receiver_id := some 1, message := some "hi" } 10).1⟩

/-! ## The chat gate looks at the status only -/

/-- Effect of a PostMessage that passes every check. -/
theorem postChat_effect (s : Store) (r : SwapRequest) (sender_id receiver_id : Int)
    (message : String) (now : Nat) (hwf : s.wf) (hr : r ∈ s.swap_requests_app)
    (hst : r.status = "accepted")
    (hs : sender_id ≠ 0) (hrc : receiver_id ≠ 0) (hm : message ≠ "")
    (hsu : sender_id ∈ s.users) (hru : receiver_id ∈ s.users) :
    (postChat s r.id
        { sender_id := some sender_id, receiver_id := some receiver_id,
          message := some message } now).1 =
      { status := 200,
        body := [("success", .bool true), ("id", .num s.chat_messages_seq),
                 ("message", .str "Message sent successfully")] } ∧
    (postChat s r.id
        { sender_id := some sender_id, receiver_id := some receiver_id,
          message := some message } now).2.chat_messages =
      s.chat_messages ++
        [{ id := s.chat_messages_seq, swap_request_id := r.id, sender_id := sender_id,
           receiver_id := receiver_id, message := message, created_at := now }] ∧
    (postChat s r.id
        { sender_id := some sender_id, receiver_id := some receiver_id,
          message := some message } now).2.notifications_app =
      s.notifications_app ++
        [{ id := s.notifications_seq, user_id := receiver_id, type := "chat_message",
           title := "New Message",
           message := "You have a new message from user " ++ toString sender_id,
           related_id := s.chat_messages_seq, is_read := false, created_at := now }] := by
  have hguard : ¬(sender_id = 0 ∨ receiver_id = 0 ∨ message = "") := by
    rintro (h | h | h)
    exacts [hs h, hrc h, hm h]
  have hget := getSwapRequest_of_mem s r hwf hr
  have hacc : ¬(r.status ≠ "accepted") := not_not.2 hst
  have hins := insertChatMessage_ok s r.id sender_id receiver_id message now hwf
    (List.mem_map_of_mem (·.id) hr) hsu hru
  have hwf1 := insertChatMessage_wf s r.id sender_id receiver_id message now hwf
  rw [hins] at hwf1
  have hnot := insertNotification_ok _ receiver_id "chat_message" "New Message"
    ("You have a new message from user " ++ toString sender_id) s.chat_messages_seq now
    hwf1 hru
  simp only [postChat, if_neg hguard, hget, if_neg hacc, hins, hnot]
  exact ⟨trivial, trivial, trivial⟩

theorem find_status_congr (l l' : List SwapRequest) (id : Int)
    (h : l.map (fun r => (r.id, r.status)) = l'.map (fun r => (r.id, r.status))) :
    (l.find? fun r => r.id == id).map (·.status) =
      (l'.find? fun r => r.id == id).map (·.status) := by
  induction l generalizing l' with
  | nil =>
    cases l' with
    | nil => rfl
    | cons b l' => simp at h
  | cons a l ih =>
    cases l' with
    | nil => simp at h
    | cons b l' =>
      simp only [List.map_cons, List.cons.injEq, Prod.mk.injEq] at h
      obtain ⟨⟨hid, hst⟩, htl⟩ := h
      by_cases hc : a.id = id
      · have hc' : b.id = id := hid ▸ hc
        simp [List.find?_cons, hc, hc', hst]
      · have hc' : ¬b.id = id := hid ▸ hc
        rw [List.find?_cons_of_neg _ (by simpa using hc),
          List.find?_cons_of_neg _ (by simpa using hc')]
        exact ih l' htl

theorem insertChatMessage_sameButParties (s s' : Store)
    (swap_request_id sender_id receiver_id : Int) (message : String) (now : Nat)
    (h : s.sameButParties s') :
    (insertChatMessage s swap_request_id sender_id receiver_id message now).1 =
      (insertChatMessage s' swap_request_id sender_id receiver_id message now).1 ∧
    (insertChatMessage s swap_request_id sender_id receiver_id message now).2.sameButParties
      (insertChatMessage s' swap_request_id sender_id receiver_id message now).2 := by
  obtain ⟨h1, h2, h3, h4, h5, h6⟩ := h
  have hids : s.swap_requests_app.map (·.id) = s'.swap_requests_app.map (·.id) := by
    have := congrArg (List.map Prod.fst) h6
    simpa [List.map_map] using this
  unfold insertChatMessage
  simp only [h1, h3, h5, hids]
  split_ifs <;> exact ⟨rfl, rfl, h2, rfl, h4, rfl, h6⟩

theorem insertNotification_sameButParties (s s' : Store) (user_id : Int)
    (type title message : String) (related_id : Int) (now : Nat) (h : s.sameButParties s') :
    (insertNotification s user_id type title message related_id now).2.sameButParties
      (insertNotification s' user_id type title message related_id now).2 := by
  obtain ⟨h1, h2, h3, h4, h5, h6⟩ := h
  unfold insertNotification
  simp only [h1, h2, h4]
  split_ifs <;> exact ⟨rfl, rfl, h3, rfl, h5, h6⟩

theorem postChat_sameButParties (s s' : Store) (swapRequestId : Int) (body : ChatInput)
    (now : Nat) (h : s.sameButParties s') :
    (postChat s swapRequestId body now).1 = (postChat s' swapRequestId body now).1 ∧
    (postChat s swapRequestId body now).2.sameButParties
      (postChat s' swapRequestId body now).2 := by
  obtain ⟨sd, rc, m⟩ := body
  have hfind := find_status_congr s.swap_requests_app s'.swap_requests_app swapRequestId
    h.2.2.2.2.2
  unfold postChat
  rcases sd with _ | sd
  · exact ⟨rfl, h⟩
  rcases rc with _ | rc
  · exact ⟨rfl, h⟩
  rcases m with _ | m
  · exact ⟨rfl, h⟩
  by_cases hg : sd = 0 ∨ rc = 0 ∨ m = ""
  · simp only [if_pos hg]
    exact ⟨trivial, h⟩
  · simp only [if_neg hg]
    have hfind' : (getSwapRequest s swapRequestId).map (·.status) =
        (getSwapRequest s' swapRequestId).map (·.status) := hfind
    rcases hq : getSwapRequest s swapRequestId with _ | r <;>
      rcases hq' : getSwapRequest s' swapRequestId with _ | r' <;>
      rw [hq, hq'] at hfind' <;> simp only [Option.map_none', Option.map_some',
        Option.some.injEq, reduceCtorEq] at hfind'
    · exact ⟨rfl, h⟩
    · simp only [hfind']
      by_cases hs : r'.status ≠ "accepted"
      · simp only [if_pos hs]
        exact ⟨trivial, h⟩
      · simp only [if_neg hs]
        obtain ⟨e1, e2⟩ := insertChatMessage_sameButParties s s' swapRequestId sd rc m now h
        rcases hi : insertChatMessage s swapRequestId sd rc m now with ⟨res, s1⟩
        rcases hi' : insertChatMessage s' swapRequestId sd rc m now with ⟨res', s1'⟩
        rw [hi, hi'] at e1 e2
        simp only at e1 e2
        subst e1
        cases res with
        | error e => exact ⟨rfl, e2⟩
        | ok lastID => exact ⟨rfl, insertNotification_sameButParties s1 s1' _ _ _ _ _ _ e2⟩

/-- C20 (as stated, refuted): request 1 is accepted and the three inputs are present, yet
PostMessage fails with 500 and persists nothing when `receiver_id` is 7, which is no
user's id, and fails with 400 when `sender_id` is 0. -/
theorem postChat_gate_present_not_sufficient :
    fourUsersStore.wf ∧
    fourUsersStore.swap_requests_app.map (fun r => (r.id, r.status)) = [(1, "accepted")] ∧
    (postChat fourUsersStore 1
        { sender_id := some 3, receiver_id := some 7, message := some "hi" } 12).1.status
      = 500 ∧
    (postChat fourUsersStore 1
        { sender_id := some 3, receiver_id := some 7, message := some "hi" } 12).2.chat_messages
      = [] ∧
    (postChat fourUsersStore 1
        { sender_id := some 0, receiver_id := some 4, message := some "hi" } 12).1.status
      = 400 := by
  decide

/-- C20 (amended): the chat gate checks only the request's status, not who is posting.
On a store that satisfies its schema, for an accepted SwapRequest and any `sender_id` and
`receiver_id` that are non-zero ids of existing users, parties of the request or not, and
any non-empty `message`, PostMessage is answered 200, the message is stored and the
receiver gets the `chat_message` notification for it. And for every store and every
input, two stores that differ only in fields of the swap requests other than `id` and
`status`, such as `from_user_id` and `to_user_id`, give the same answer, the same chat
messages and the same notifications. -/
theorem postChat_gate_status_only (s s' : Store) (r : SwapRequest)
    (sender_id receiver_id : Int) (message : String) (swapRequestId : Int) (body : ChatInput)
    (now : Nat) :
    (s.wf → r ∈ s.swap_requests_app → r.status = "accepted" →
      sender_id ≠ 0 → receiver_id ≠ 0 → message ≠ "" →
      sender_id ∈ s.users → receiver_id ∈ s.users →
      (postChat s r.id
          { sender_id := some sender_id, receiver_id := some receiver_id,
            message := some message } now).1.status = 200 ∧
      { id := s.chat_messages_seq, swap_request_id := r.id, sender_id := sender_id,
        receiver_id := receiver_id, message := message, created_at := now } ∈
        (postChat s r.id
          { sender_id := some sender_id, receiver_id := some receiver_id,
            message := some message } now).2.chat_messages ∧
      { id := s.notifications_seq, user_id := receiver_id, type := "chat_message",
        title := "New Message",
        message := "You have a new message from user " ++ toString sender_id,
        related_id := s.chat_messages_seq, is_read := false, created_at := now } ∈
        (postChat s r.id
          { sender_id := some sender_id, receiver_id := some receiver_id,
            message := some message } now).2.notifications_app) ∧
    (s.sameButParties s' →
      (postChat s swapRequestId body now).1 = (postChat s' swapRequestId body now).1 ∧
      (postChat s swapRequestId body now).2.chat_messages =
        (postChat s' swapRequestId body now).2.chat_messages ∧
      (postChat s swapRequestId body now).2.notifications_app =
        (postChat s' swapRequestId body now).2.notifications_app) := by
  constructor
  · intro hwf hr hst hs hrc hm hsu hru
    obtain ⟨e1, e2, e3⟩ := postChat_effect s r sender_id receiver_id message now hwf hr hst
      hs hrc hm hsu hru
    rw [e1, e2, e3]
    exact ⟨rfl, by simp, by simp⟩
  · intro h
    obtain ⟨e1, e2⟩ := postChat_sameButParties s s' swapRequestId body now h
    exact ⟨e1, e2.2.2.1, e2.2.1⟩

/-- Witness of C20: on request 1 between users 1 and 2, user 3 writes to user 4, who gets
the notification; the answer is the one given when the request is between users 3 and 4. -/
theorem postChat_gate_status_only_witness :
    ((postChat fourUsersStore 1
          { sender_id := some 3, receiver_id := some 4, message := some "hi" } 12).1.status
        = 200 ∧
      { id := 1, swap_request_id := 1, sender_id := 3, receiver_id := 4, message := "hi",
        created_at := 12 } ∈
        (postChat fourUsersStore 1
          { sender_id := some 3, receiver_id := some 4, message := some "hi" }
          12).2.chat_messages ∧
      { id := 3, user_id := 4, type := "chat_message", title := "New Message",
        message := "You have a new message from user " ++ toString (3 : Int),
        related_id := 1, is_read := false, created_at := 12 } ∈
        (postChat fourUsersStore 1
          { sender_id := some 3, receiver_id := some 4, message := some "hi" }
          12).2.notifications_app) ∧
    (postChat fourUsersStore 1
          { sender_id := some 3, receiver_id := some 4, message := some "hi" } 12).1 =
      (postChat fourUsersOtherPartiesStore 1
          { sender_id := some 3, receiver_id := some 4, message := some "hi" } 12).1 :=
  ⟨(postChat_gate_status_only fourUsersStore fourUsersOtherPartiesStore
      { id := 1, from_user_id := 1, to_user_id := 2, offered_skill := "JS",
        wanted_skill := "Design", message := none, status := "accepted",
        created_at := 10, updated_at := 11 }
      3 4 "hi" 1 { sender_id := some 3, receiver_id := some 4, message := some "hi" } 12).1
      (by decide) (by decide) (by decide) (by decide) (by decide) (by decide) (by decide)
      (by decide),
   ((postChat_gate_status_only fourUsersStore fourUsersOtherPartiesStore
      { id := 1, from_user_id := 1, to_user_id := 2, offered_skill := "JS",
        wanted_skill := "Design", message := none, status := "accepted",
        created_at := 10, updated_at := 11 }
      3 4 "hi" 1 { sender_id := some 3, receiver_id := some 4, message := some "hi" } 12).2
      (by decide)).1⟩

/-! ## Lists of the chat -/

theorem filter_beq_of_nodup (l : List Int) (a : Int) (hn : l.Nodup) (ha : a ∈ l) :
    l.filter (fun u => a == u) = [a] := by
  induction l with
  | nil => cases ha
  | cons b l ih =>
    rw [List.nodup_cons] at hn
    rcases List.mem_cons.1 ha with rfl | ha'
    · have hnil : l.filter (fun u => a == u) = [] := by
        rw [List.filter_eq_nil_iff]
        intro u hu
        have hne : a ≠ u := fun h => hn.1 (h ▸ hu)
        simpa using hne
      simp [List.filter_cons, hnil]
    · have hne : a ≠ b := fun h => hn.1 (h ▸ ha')
      rw [List.filter_cons_of_neg (by simpa using hne)]
      exact ih hn.2 ha'

theorem flatMap_eq_filter_map {α β : Type} (l : List α) (f : α → List β) (p : α → Bool)
    (g : α → β) (h : ∀ a ∈ l, f a = if p a then [g a] else []) :
    l.flatMap f = (l.filter p).map g := by
  induction l with
  | nil => rfl
  | cons a l ih =>
    rw [List.flatMap_cons, h a (List.mem_cons_self a l),
      ih fun b hb => h b (List.mem_cons_of_mem a hb)]
    cases hp : p a <;> simp [List.filter_cons, hp]

/-- The join of `chat_messages` with `users` on the sender keeps every message once. -/
theorem chat_join_users (s : Store) (userName : Int → Option String) (hwf : s.wf)
    (hu : s.users.Nodup) :
    (s.chat_messages.flatMap fun cm =>
      (s.users.filter fun u => cm.sender_id == u).map fun u =>
        ({ toChatMessage := cm, sender_name := userName u } : ChatMessageRow)) =
      s.chat_messages.map fun cm =>
        ({ toChatMessage := cm, sender_name := userName cm.sender_id } : ChatMessageRow) := by
  have h := flatMap_eq_filter_map s.chat_messages
    (fun cm => (s.users.filter fun u => cm.sender_id == u).map fun u =>
      ({ toChatMessage := cm, sender_name := userName u } : ChatMessageRow))
    (fun _ => true)
    (fun cm => ({ toChatMessage := cm, sender_name := userName cm.sender_id } : ChatMessageRow))
    (by
      intro cm hcm
      have hs := (hwf.2.2.2.2.2.2.2.2 cm hcm).2.1
      simp only [filter_beq_of_nodup s.users cm.sender_id hu hs, List.map_cons, List.map_nil,
        if_true])
  rw [h, List.filter_true]

/-- The rows of the messages query: the messages of the request, each once, oldest first,
with the name of the sender. -/
theorem getChat_sorted_perm (s : Store) (userName : Int → Option String)
    (swapRequestId : Int) (hwf : s.wf) (hu : s.users.Nodup) :
    ((getChat s userName swapRequestId).map (·.toChatMessage)).Perm
      (s.chat_messages.filter fun cm => cm.swap_request_id == swapRequestId) ∧
    (getChat s userName swapRequestId).Sorted (fun a b => a.created_at ≤ b.created_at) ∧
    ∀ row ∈ getChat s userName swapRequestId, row.sender_name = userName row.sender_id := by
  haveI : IsTotal ChatMessageRow (fun a b => a.created_at ≤ b.created_at) :=
    ⟨fun a b => Nat.le_total a.created_at b.created_at⟩
  haveI : IsTrans ChatMessageRow (fun a b => a.created_at ≤ b.created_at) :=
    ⟨fun _ _ _ h1 h2 => Nat.le_trans h1 h2⟩
  unfold getChat
  rw [chat_join_users s userName hwf hu]
  refine ⟨?_, List.sorted_insertionSort _ _, ?_⟩
  · refine ((List.perm_insertionSort _ _).map _).trans ?_
    rw [List.filter_map, List.map_map]
    have hid : ((fun x : ChatMessageRow => x.toChatMessage) ∘ fun cm : ChatMessage =>
        ({ toChatMessage := cm, sender_name := userName cm.sender_id } : ChatMessageRow)) =
        id := rfl
    rw [hid, List.map_id]
    exact List.Perm.refl _
  · intro row hrow
    rw [List.mem_insertionSort] at hrow
    obtain ⟨hrow, _⟩ := List.mem_filter.1 hrow
    obtain ⟨cm, _, rfl⟩ := List.mem_map.1 hrow
    rfl

theorem mem_readChatMessageIds (s : Store) (userId : Int) (cm : ChatMessage)
    (hcm : cm ∈ s.chat_messages) :
    cm.id ∈ readChatMessageIds s userId ↔
      ∃ n ∈ s.notifications_app, n.user_id = userId ∧ n.type = "chat_message" ∧
        n.is_read = true ∧ n.related_id = cm.id := by
  unfold readChatMessageIds
  simp only [List.mem_flatMap, List.mem_map, List.mem_filter, Bool.and_eq_true, beq_iff_eq]
  constructor
  · rintro ⟨cm2, _, n, ⟨hn, ⟨⟨h1, h2⟩, h3⟩, h4⟩, hid⟩
    exact ⟨n, hn, h2, h3, h4, h1.trans hid⟩
  · rintro ⟨n, hn, h2, h3, h4, h1⟩
    exact ⟨cm, hcm, n, ⟨hn, ⟨⟨h1, h2⟩, h3⟩, h4⟩, rfl⟩

theorem unreadCount_eq_spec (s : Store) (swapRequestId userId : Int) :
    unreadCount s swapRequestId userId = specUnreadCount s swapRequestId userId := by
  unfold unreadCount specUnreadCount
  congr 1
  apply List.filter_congr
  intro cm hcm
  have h := mem_readChatMessageIds s userId cm hcm
  by_cases hin : cm.id ∈ readChatMessageIds s userId
  · have := h.1 hin
    simp [hin, this]
  · have : ¬∃ n ∈ s.notifications_app, n.user_id = userId ∧ n.type = "chat_message" ∧
        n.is_read = true ∧ n.related_id = cm.id := fun hex => hin (h.2 hex)
    simp only [hin, this, not_false_eq_true, decide_True, Bool.and_true, and_true]
    by_cases h1 : cm.swap_request_id = swapRequestId <;>
      by_cases h2 : cm.receiver_id = userId <;> simp [h1, h2]

theorem users_join_filter (users : List Int) (hu : users.Nodup) (sr : SwapRequest)
    (userId : Int) (hf : sr.from_user_id ∈ users) (ht : sr.to_user_id ∈ users) :
    (users.filter fun u1 =>
        (sr.status == "accepted" &&
          (sr.from_user_id == userId || sr.to_user_id == userId) && u1 != userId) &&
        (sr.from_user_id == u1 || sr.to_user_id == u1)) =
      if sr.status = "accepted" ∧ (sr.from_user_id = userId ∨ sr.to_user_id = userId) ∧
          sr.from_user_id ≠ sr.to_user_id
      then [if sr.from_user_id = userId then sr.to_user_id else sr.from_user_id] else [] := by
  split_ifs with hgood hfrom
  · obtain ⟨hacc, hinv, hne⟩ := hgood
    rw [← filter_beq_of_nodup users sr.to_user_id hu ht]
    apply List.filter_congr
    intro u1 _
    rw [Bool.eq_iff_iff]
    simp only [Bool.and_eq_true, beq_iff_eq, Bool.or_eq_true, bne_iff_ne, ne_eq]
    constructor
    · rintro ⟨⟨_, hu1⟩, hj⟩
      rcases hj with h | h
      · exact absurd (h.symm.trans hfrom) hu1
      · exact h
    · intro h
      refine ⟨⟨⟨hacc, hinv⟩, ?_⟩, Or.inr h⟩
      intro h'
      exact hne (hfrom.trans (h'.symm.trans h.symm))
  · obtain ⟨hacc, hinv, hne⟩ := hgood
    have hto : sr.to_user_id = userId := hinv.resolve_left hfrom
    rw [← filter_beq_of_nodup users sr.from_user_id hu hf]
    apply List.filter_congr
    intro u1 _
    rw [Bool.eq_iff_iff]
    simp only [Bool.and_eq_true, beq_iff_eq, Bool.or_eq_true, bne_iff_ne, ne_eq]
    constructor
    · rintro ⟨⟨_, hu1⟩, hj⟩
      rcases hj with h | h
      · exact h
      · exact absurd (h.symm.trans hto) hu1
    · intro h
      refine ⟨⟨⟨hacc, hinv⟩, ?_⟩, Or.inl h⟩
      intro h'
      exact hfrom (h.trans h')
  · rw [List.filter_eq_nil_iff]
    intro u1 _
    simp only [Bool.and_eq_true, beq_iff_eq, Bool.or_eq_true, bne_iff_ne, ne_eq, not_and]
    rintro ⟨⟨hacc, hinv⟩, hu1⟩ hj
    apply hgood
    refine ⟨hacc, hinv, ?_⟩
    intro heq
    rcases hinv with h | h <;> rcases hj with h' | h' <;> apply hu1 <;> omega

/-- The join of `swap_requests_app` with `users` under the conditions of the query keeps
the accepted requests between the user and a different user, each once, with that other
user. -/
theorem requests_join_users (s : Store) (userId : Int) (hwf : s.wf) (hu : s.users.Nodup) :
    ((s.swap_requests_app.flatMap fun sr =>
        (s.users.filter fun u1 => sr.from_user_id == u1 || sr.to_user_id == u1).map fun u1 =>
          (sr, u1)).filter
      fun p => p.1.status == "accepted" &&
        (p.1.from_user_id == userId || p.1.to_user_id == userId) && p.2 != userId) =
      (s.swap_requests_app.filter fun sr =>
        decide (sr.status = "accepted" ∧
          (sr.from_user_id = userId ∨ sr.to_user_id = userId) ∧
          sr.from_user_id ≠ sr.to_user_id)).map fun sr =>
        (sr, if sr.from_user_id = userId then sr.to_user_id else sr.from_user_id) := by
  rw [List.filter_flatMap]
  apply flatMap_eq_filter_map
  intro sr hsr
  obtain ⟨hf, ht⟩ := hwf.2.2.2.2.2.2.1 sr hsr
  rw [List.filter_map, List.filter_filter]
  have h := users_join_filter s.users hu sr userId hf ht
  simp only [Function.comp_def]
  rw [h]
  by_cases hgood : sr.status = "accepted" ∧
      (sr.from_user_id = userId ∨ sr.to_user_id = userId) ∧ sr.from_user_id ≠ sr.to_user_id
  · rw [if_pos hgood, if_pos (decide_eq_true hgood)]
    rfl
  · rw [if_neg hgood, if_neg (by simpa using hgood)]
    rfl

/-- The rows of the conversations query: one for every accepted request between the user
and a different user, with that user as counterpart and the unread count of the
specification. -/
theorem getChatUser_entries (s : Store) (userName : Int → Option String) (userId : Int)
    (hwf : s.wf) (hu : s.users.Nodup) :
    (getChatUser s userName userId).Perm
      ((s.swap_requests_app.filter fun sr =>
          decide (sr.status = "accepted" ∧
            (sr.from_user_id = userId ∨ sr.to_user_id = userId) ∧
            sr.from_user_id ≠ sr.to_user_id)).map fun sr =>
        { swap_request_id := sr.id, offered_skill := sr.offered_skill,
          wanted_skill := sr.wanted_skill, request_date := sr.created_at,
          other_user_name :=
            userName (if sr.from_user_id = userId then sr.to_user_id else sr.from_user_id),
          other_user_id := if sr.from_user_id = userId then sr.to_user_id else sr.from_user_id,
          unread_count := specUnreadCount s sr.id userId }) := by
  unfold getChatUser
  rw [requests_join_users s userId hwf hu]
  refine ((List.perm_insertionSort _ _).map _).trans ?_
  rw [List.map_map]
  simp only [Function.comp_def, unreadCount_eq_spec]
  exact List.Perm.refl _

/-! ## Every chat message has its notification -/

theorem insertNotification_chat (s : Store) (user_id : Int) (type title message : String)
    (related_id : Int) (now : Nat) :
    (insertNotification s user_id type title message related_id now).2.chat_messages =
      s.chat_messages := by
  unfold insertNotification
  simp only
  split_ifs <;> rfl

theorem insertNotification_mem (s : Store) (user_id : Int) (type title message : String)
    (related_id : Int) (now : Nat) (n : Notification) (hn : n ∈ s.notifications_app) :
    n ∈ (insertNotification s user_id type title message related_id now).2.notifications_app := by
  unfold insertNotification
  simp only
  split_ifs
  · exact hn
  · exact List.mem_append_left _ hn
  · exact hn

theorem insertSwapRequest_other_tables (s : Store) (from_user_id to_user_id : Int)
    (offered_skill wanted_skill : String) (message : Option String) (now : Nat) :
    (insertSwapRequest s from_user_id to_user_id offered_skill wanted_skill message
        now).2.chat_messages = s.chat_messages ∧
    (insertSwapRequest s from_user_id to_user_id offered_skill wanted_skill message
        now).2.notifications_app = s.notifications_app := by
  unfold insertSwapRequest
  simp only
  split_ifs <;> exact ⟨rfl, rfl⟩

/-- Create keeps the chat messages and every notification. -/
theorem postSwapRequests_other_tables (s : Store) (body : CreateInput) (now : Nat) :
    (postSwapRequests s body now).2.chat_messages = s.chat_messages ∧
    ∀ n ∈ s.notifications_app, n ∈ (postSwapRequests s body now).2.notifications_app := by
  obtain ⟨f, t, o, w, m⟩ := body
  unfold postSwapRequests
  rcases f with _ | f
  · exact ⟨rfl, fun n hn => hn⟩
  rcases t with _ | t
  · exact ⟨rfl, fun n hn => hn⟩
  rcases o with _ | o
  · exact ⟨rfl, fun n hn => hn⟩
  rcases w with _ | w
  · exact ⟨rfl, fun n hn => hn⟩
  by_cases hg : f = 0 ∨ t = 0 ∨ o = "" ∨ w = ""
  · simp only [if_pos hg]
    exact ⟨trivial, fun n hn => hn⟩
  · simp only [if_neg hg]
    have h := insertSwapRequest_other_tables s f t o w m now
    rcases hi : insertSwapRequest s f t o w m now with ⟨res, s1⟩
    rw [hi] at h
    simp only at h
    cases res with
    | error e => exact ⟨h.1, fun n hn => h.2 ▸ hn⟩
    | ok requestId =>
      refine ⟨(insertNotification_chat _ _ _ _ _ _ _).trans h.1, fun n hn => ?_⟩
      exact insertNotification_mem _ _ _ _ _ _ _ n (h.2 ▸ hn)

/-- Transition keeps the chat messages and every notification. -/
theorem putSwapRequest_other_tables (s : Store) (id : Int) (status : Option String)
    (now : Nat) :
    (putSwapRequest s id status now).2.chat_messages = s.chat_messages ∧
    ∀ n ∈ s.notifications_app, n ∈ (putSwapRequest s id status now).2.notifications_app := by
  unfold putSwapRequest
  split
  · next st =>
    by_cases hst : st = "accepted" ∨ st = "rejected"
    · rw [if_pos hst]
      dsimp only
      split
      · exact ⟨insertNotification_chat _ _ _ _ _ _ _,
          fun n hn => insertNotification_mem _ _ _ _ _ _ _ n hn⟩
      · exact ⟨rfl, fun n hn => hn⟩
    · rw [if_neg hst]
      exact ⟨rfl, fun n hn => hn⟩
  · exact ⟨rfl, fun n hn => hn⟩

/-- PostMessage on a store that satisfies its schema writes nothing, or stores one message
together with the `chat_message` notification of its receiver. -/
theorem postChat_tables (s : Store) (swapRequestId : Int) (body : ChatInput) (now : Nat)
    (hwf : s.wf) :
    ((postChat s swapRequestId body now).2.chat_messages = s.chat_messages ∧
      (postChat s swapRequestId body now).2.notifications_app = s.notifications_app) ∨
    ∃ m n, (postChat s swapRequestId body now).2.chat_messages = s.chat_messages ++ [m] ∧
      (postChat s swapRequestId body now).2.notifications_app = s.notifications_app ++ [n] ∧
      n.user_id = m.receiver_id ∧ n.type = "chat_message" ∧ n.related_id = m.id := by
  obtain ⟨sd, rc, msg⟩ := body
  unfold postChat
  rcases sd with _ | sd
  · exact Or.inl ⟨rfl, rfl⟩
  rcases rc with _ | rc
  · exact Or.inl ⟨rfl, rfl⟩
  rcases msg with _ | msg
  · exact Or.inl ⟨rfl, rfl⟩
  by_cases hg : sd = 0 ∨ rc = 0 ∨ msg = ""
  · simp only [if_pos hg]
    exact Or.inl ⟨trivial, trivial⟩
  · simp only [if_neg hg]
    cases getSwapRequest s swapRequestId with
    | none => exact Or.inl ⟨rfl, rfl⟩
    | some request =>
      by_cases hs : request.status ≠ "accepted"
      · simp only [if_pos hs]
        exact Or.inl ⟨trivial, trivial⟩
      · simp only [if_neg hs]
        have hwf1 := insertChatMessage_wf s swapRequestId sd rc msg now hwf
        unfold insertChatMessage at hwf1 ⊢
        simp only at hwf1 ⊢
        split_ifs at hwf1 ⊢ with h1 h2 h3 h4
        · exact Or.inl ⟨rfl, rfl⟩
        · have hnot := insertNotification_ok _ rc "chat_message" "New Message"
            ("You have a new message from user " ++ toString sd) s.chat_messages_seq now
            hwf1 h4
          simp only [hnot]
          exact Or.inr ⟨_, _, rfl, rfl, rfl, rfl, rfl⟩
        · exact Or.inl ⟨rfl, rfl⟩
        · exact Or.inl ⟨rfl, rfl⟩
        · exact Or.inl ⟨rfl, rfl⟩

/-- In a reachable state every chat message has a `chat_message` notification for its
receiver whose `related_id` is the message's id. -/
theorem reachable_chat_notified {users : List Int} {s : Store} (h : Reachable users s) :
    ∀ m ∈ s.chat_messages, ∃ n ∈ s.notifications_app,
      n.user_id = m.receiver_id ∧ n.type = "chat_message" ∧ n.related_id = m.id := by
  induction h with
  | init => intro m hm; cases hm
  | @step s0 op hreach ih =>
    intro m hm
    cases op with
    | create body now =>
      obtain ⟨hc, hn⟩ := postSwapRequests_other_tables s0 body now
      obtain ⟨n, hnm, hp⟩ := ih m (hc ▸ hm)
      exact ⟨n, hn n hnm, hp⟩
    | transition id status now =>
      obtain ⟨hc, hn⟩ := putSwapRequest_other_tables s0 id status now
      obtain ⟨n, hnm, hp⟩ := ih m (hc ▸ hm)
      exact ⟨n, hn n hnm, hp⟩
    | postMessage swapRequestId body now =>
      rcases postChat_tables s0 swapRequestId body now hreach.wf with
        ⟨hc, hn⟩ | ⟨m0, n0, hc, hn, hp⟩
      · obtain ⟨n, hnm, hq⟩ := ih m (hc ▸ hm)
        exact ⟨n, by simp only [handle]; rw [hn]; exact hnm, hq⟩
      · simp only [handle] at hm ⊢
        rw [hc] at hm
        rw [hn]
        rcases List.mem_append.1 hm with hm | hm
        · obtain ⟨n, hnm, hq⟩ := ih m hm
          exact ⟨n, List.mem_append_left _ hnm, hq⟩
        · rw [List.mem_singleton] at hm
          subst hm
          exact ⟨n0, List.mem_append_right _ (List.mem_singleton_self n0), hp⟩
    | markRead id =>
      obtain ⟨n, hnm, hq⟩ := ih m hm
      refine ⟨if n.id = id then { n with is_read := true } else n,
        List.mem_map_of_mem _ hnm, ?_⟩
      by_cases hc : n.id = id <;> simpa [hc] using hq
    | markAllRead userId =>
      obtain ⟨n, hnm, hq⟩ := ih m hm
      refine ⟨if n.user_id = userId then { n with is_read := true } else n,
        List.mem_map_of_mem _ hnm, ?_⟩
      by_cases hc : n.user_id = userId <;> simpa [hc] using hq

theorem unreadCount_after_readAll (s : Store) (swapRequestId userId : Int)
    (hinv : ∀ m ∈ s.chat_messages, ∃ n ∈ s.notifications_app,
      n.user_id = m.receiver_id ∧ n.type = "chat_message" ∧ n.related_id = m.id) :
    unreadCount (updateNotificationsReadAll s userId) swapRequestId userId = 0 := by
  unfold unreadCount
  rw [List.length_eq_zero, List.filter_eq_nil_iff]
  intro cm hcm
  have hcm' : cm ∈ s.chat_messages := hcm
  simp only [Bool.and_eq_true, beq_iff_eq, decide_eq_true_eq, not_and, not_not]
  rintro ⟨_, hrc⟩
  rw [mem_readChatMessageIds _ userId cm hcm]
  obtain ⟨n, hn, hu, ht, hr⟩ := hinv cm hcm'
  have hnu : n.user_id = userId := hu.trans hrc
  refine ⟨{ n with is_read := true }, ?_, hnu, ht, rfl, hr⟩
  simp only [updateNotificationsReadAll, List.mem_map]
  exact ⟨n, hn, by simp [hnu]⟩

/-- C19: in every state reachable by Create, Transition, PostMessage, MarkRead and
MarkAllRead from the store that holds only users, every ChatMessage has a `chat_message`
Notification whose `user_id` is the message's receiver and whose `related_id` is the
message's id; and right after MarkAllRead of a user, every conversation that
ListConversations returns for that user has unread_count 0. -/
theorem chat_notified_and_read (users : List Int) (s : Store)
    (userName : Int → Option String) (userId : Int) (hreach : Reachable users s) :
    (∀ m ∈ s.chat_messages, ∃ n ∈ s.notifications_app,
      n.user_id = m.receiver_id ∧ n.type = "chat_message" ∧ n.related_id = m.id) ∧
    ∀ c ∈ getChatUser (putNotificationsReadAll s userId).2 userName userId,
      c.unread_count = 0 := by
  have hinv := reachable_chat_notified hreach
  refine ⟨hinv, fun c hc => ?_⟩
  unfold getChatUser at hc
  obtain ⟨p, _, rfl⟩ := List.mem_map.1 hc
  exact unreadCount_after_readAll s p.1.id userId hinv

/-- Witness of C19: user 2 writes to user 1 on the accepted request 1; before MarkAllRead
user 1 has one unread message in the conversation, after it none. -/
theorem chat_notified_and_read_witness :
    (getChatUser
        (postChat acceptedStore 1
          { sender_id := some 2, receiver_id := some 1, message := some "hi" } 12).2
        (fun _ => none) 1).map (·.unread_count) = [1] ∧
    ∀ c ∈ getChatUser
        (putNotificationsReadAll
          (postChat acceptedStore 1
            { sender_id := some 2, receiver_id := some 1, message := some "hi" } 12).2 1).2
        (fun _ => none) 1,
      c.unread_count = 0 :=
  ⟨by decide,
   (chat_notified_and_read [1, 2]
      (postChat acceptedStore 1
        { sender_id := some 2, receiver_id := some 1, message := some "hi" } 12).2
      (fun _ => none) 1
      (Reachable.step
        (.postMessage 1 { sender_id := some 2, receiver_id := some 1, message := some "hi" } 12)
        (Reachable.step (.transition 1 (some "accepted") 11)
          (Reachable.step
            (.create { from_user_id := some 1, to_user_id := some 2,
                       offered_skill := some "JS", wanted_skill := some "Design",
                       message := none } 10)
            Reachable.init)))).2⟩

/-! ## Placeholder translation -/

theorem digitChar_ne_placeholder (m : Nat) (hm : m < 10) : Nat.digitChar m ≠ '?' := by
  interval_cases m <;> decide

theorem toDigitsCore_no_placeholder (fuel n : Nat) (ds : List Char) (h : '?' ∉ ds) :
    '?' ∉ Nat.toDigitsCore 10 fuel n ds := by
  induction fuel generalizing n ds with
  | zero => simpa [Nat.toDigitsCore] using h
  | succ fuel ih =>
    have hcons : '?' ∉ Nat.digitChar (n % 10) :: ds := by
      intro hmem
      rcases List.mem_cons.1 hmem with h1 | h1
      · exact digitChar_ne_placeholder _ (Nat.mod_lt n (by decide)) h1.symm
      · exact h h1
    simp only [Nat.toDigitsCore]
    split_ifs
    · exact hcons
    · exact ih _ _ hcons

theorem toDigits_no_placeholder (n : Nat) : '?' ∉ Nat.toDigits 10 n :=
  toDigitsCore_no_placeholder _ _ [] (List.not_mem_nil _)

theorem replacePlaceholders_no_placeholder (k : Nat) (l : List Char) :
    '?' ∉ replacePlaceholders k l := by
  induction l generalizing k with
  | nil => simp [replacePlaceholders]
  | cons c cs ih =>
    unfold replacePlaceholders
    split_ifs with hc
    · intro hmem
      rcases List.mem_append.1 hmem with h1 | h1
      · rcases List.mem_cons.1 h1 with h2 | h2
        · exact absurd h2 (by decide)
        · exact toDigits_no_placeholder _ h2
      · exact ih _ h1
    · intro hmem
      rcases List.mem_cons.1 hmem with h1 | h1
      · exact hc h1.symm
      · exact ih _ h1

theorem replacePlaceholders_of_no_placeholder (k : Nat) (l : List Char) (h : '?' ∉ l) :
    replacePlaceholders k l = l := by
  induction l with
  | nil => rfl
  | cons c cs ih =>
    have hc : c ≠ '?' := fun hc => h (hc ▸ List.mem_cons_self c cs)
    unfold replacePlaceholders
    rw [if_neg hc, ih fun hm => h (List.mem_cons_of_mem c hm)]

theorem replacePlaceholders_append (k : Nat) (l m : List Char) (h : '?' ∉ m) :
    replacePlaceholders k (l ++ m) = replacePlaceholders k l ++ m := by
  induction l generalizing k with
  | nil => simpa [replacePlaceholders] using replacePlaceholders_of_no_placeholder k m h
  | cons c cs ih =>
    rw [List.cons_append]
    unfold replacePlaceholders
    split_ifs
    · rw [ih, List.append_assoc]
    · rw [ih, List.cons_append]

theorem numberedJoin_modifyHead (k : Nat) (c : Char) (pieces : List (List Char))
    (h : pieces ≠ []) :
    numberedJoin k (pieces.modifyHead (List.cons c)) = c :: numberedJoin k pieces := by
  cases pieces with
  | nil => exact absurd rfl h
  | cons p rest =>
    cases rest with
    | nil => simp [numberedJoin]
    | cons q rest => simp [numberedJoin]

theorem numberedJoin_nil_cons (k : Nat) (pieces : List (List Char)) (h : pieces ≠ []) :
    numberedJoin k ([] :: pieces) =
      ('$' :: Nat.toDigits 10 (k + 1)) ++ numberedJoin (k + 1) pieces := by
  cases pieces with
  | nil => exact absurd rfl h
  | cons p rest => simp [numberedJoin]

theorem replacePlaceholders_eq_numberedJoin (k : Nat) (l : List Char) :
    replacePlaceholders k l = numberedJoin k (l.splitOnP fun x => x == '?') := by
  induction l generalizing k with
  | nil => simp [replacePlaceholders, numberedJoin]
  | cons c cs ih =>
    have hne : (cs.splitOnP fun x => x == '?') ≠ [] := List.splitOnP_ne_nil _ _
    unfold replacePlaceholders
    rw [List.splitOnP_cons]
    by_cases hc : c = '?'
    · rw [if_pos hc, if_pos (by simpa using hc)]
      rw [numberedJoin_nil_cons _ _ hne, ih]
    · rw [if_neg hc, if_neg (by simpa using hc)]
      rw [numberedJoin_modifyHead _ _ _ hne, ih]

theorem splitOnP_pieces (l : List Char) :
    (l.splitOnP fun x => x == '?').length = l.count '?' + 1 ∧
    ∀ piece ∈ l.splitOnP fun x => x == '?', '?' ∉ piece := by
  induction l with
  | nil => simp
  | cons c cs ih =>
    have hne : (cs.splitOnP fun x => x == '?') ≠ [] := List.splitOnP_ne_nil _ _
    rw [List.splitOnP_cons]
    by_cases hc : c = '?'
    · rw [if_pos (by simpa using hc)]
      subst hc
      refine ⟨by simp [ih.1], ?_⟩
      intro piece hp
      rcases List.mem_cons.1 hp with h1 | h1
      · subst h1; simp
      · exact ih.2 piece h1
    · rw [if_neg (by simpa using hc)]
      rcases hsp : (cs.splitOnP fun x => x == '?') with _ | ⟨p, rest⟩
      · exact absurd hsp hne
      · rw [hsp] at ih
        simp only [List.modifyHead_cons, List.length_cons]
        refine ⟨by rw [List.count_cons_of_ne (Ne.symm hc)]; simpa using ih.1, ?_⟩
        intro piece hp
        rcases List.mem_cons.1 hp with h1 | h1
        · subst h1
          intro hm
          rcases List.mem_cons.1 hm with h2 | h2
          · exact hc h2.symm
          · exact ih.2 p (List.mem_cons_self p rest) h2
        · exact ih.2 piece (List.mem_cons_of_mem p h1)

/-- C17: for every statement text and parameter list, `toPgParams` returns the text whose
pieces between the `?` are kept and joined with `$1`, `$2`, ... in this order (the text
has one piece more than it has `?`, the pieces contain no `?` and joined with `?` they
give the text back), so the k-th `?` becomes `$k` and every other character is kept; the
result contains no `?`; a text without `?` is returned unchanged; and the parameter list
is returned as it was given. -/
theorem toPgParams_translates {α : Type} (sql : String) (params : List α) :
    (toPgParams sql params).1.data = numberedJoin 0 (sql.data.splitOn '?') ∧
    ['?'].intercalate (sql.data.splitOn '?') = sql.data ∧
    (sql.data.splitOn '?').length = sql.data.count '?' + 1 ∧
    (∀ piece ∈ sql.data.splitOn '?', '?' ∉ piece) ∧
    '?' ∉ (toPgParams sql params).1.data ∧
    ('?' ∉ sql.data → (toPgParams sql params).1 = sql) ∧
    (toPgParams sql params).2 = params := by
  refine ⟨replacePlaceholders_eq_numberedJoin 0 sql.data, List.intercalate_splitOn sql.data _,
    (splitOnP_pieces sql.data).1, (splitOnP_pieces sql.data).2,
    replacePlaceholders_no_placeholder 0 sql.data, fun h => ?_, rfl⟩
  unfold toPgParams
  simp only
  rw [replacePlaceholders_of_no_placeholder 0 sql.data h]

/-- Witness of C17: a statement without placeholder is sent as it is. -/
theorem toPgParams_translates_witness :
    (toPgParams "SELECT * FROM users" [1, 2]).1 = "SELECT * FROM users" :=
  (toPgParams_translates "SELECT * FROM users" [1, 2]).2.2.2.2.2.1 (by decide)

/-! ## Identity-returning rewrite -/

theorem matchWord_iff (w l rest : List Char) :
    matchWord w l = some rest ↔
      ∃ word, l = word ++ rest ∧ List.Forall₂ (fun x y => ciMatch x y = true) word w := by
  induction w generalizing l with
  | nil =>
    simp only [matchWord, Option.some.injEq]
    constructor
    · intro h
      exact ⟨[], by simp [h], List.Forall₂.nil⟩
    · rintro ⟨word, hl, hf⟩
      cases hf
      simpa using hl
  | cons y w ih =>
    cases l with
    | nil =>
      simp only [matchWord, reduceCtorEq, false_iff]
      rintro ⟨word, hl, hf⟩
      cases hf
      simp at hl
    | cons c cs =>
      simp only [matchWord]
      constructor
      · intro h
        by_cases hc : ciMatch c y = true
        · rw [if_pos hc] at h
          obtain ⟨word, hl, hf⟩ := (ih cs).1 h
          exact ⟨c :: word, by rw [hl, List.cons_append], List.Forall₂.cons hc hf⟩
        · rw [if_neg hc] at h
          cases h
      · rintro ⟨word, hl, hf⟩
        cases hf with
        | cons hc hf' =>
          rw [List.cons_append, List.cons.injEq] at hl
          rw [hl.1, if_pos hc]
          exact (ih cs).2 ⟨_, hl.2, hf'⟩

theorem isInsert_iff (trimmed : List Char) :
    isInsert trimmed = true ↔ startsWithInsert trimmed := by
  unfold isInsert startsWithInsert
  constructor
  · intro h
    rcases hm : matchWord "insert".data trimmed with _ | rest
    · rw [hm] at h; cases h
    · rw [hm] at h
      cases rest with
      | nil => cases h
      | cons c rest =>
        obtain ⟨word, hl, hf⟩ := (matchWord_iff _ _ _).1 hm
        exact ⟨word, c, rest, hl, hf, h⟩
  · rintro ⟨word, c, rest, hl, hf, hc⟩
    rw [(matchWord_iff _ _ _).2 ⟨word, hl, hf⟩]
    exact hc

theorem ciMatch_not_whiteSpace (x : Char) (h : ciMatch x 'i' = true) :
    jsWhiteSpace x = false := by
  have hx : x = 'i' ∨ x = 'I' := by
    have hu : Char.toUpper 'i' = 'I' := by decide
    simpa [ciMatch, hu] using h
  rcases hx with rfl | rfl <;> decide

theorem dropWhile_append_all (p : Char → Bool) (ws r : List Char) (h : ∀ c ∈ ws, p c = true) :
    (ws ++ r).dropWhile p = r.dropWhile p := by
  induction ws with
  | nil => rfl
  | cons c ws ih =>
    rw [List.cons_append, List.dropWhile_cons_of_pos (h c (List.mem_cons_self c ws))]
    exact ih fun d hd => h d (List.mem_cons_of_mem c hd)

theorem matchReturningId_iff (l : List Char) :
    matchReturningId l = true ↔
      ∃ kw ws idw after, l = kw ++ (ws ++ (idw ++ after)) ∧
        List.Forall₂ (fun x w => ciMatch x w = true) kw "returning".data ∧
        ws ≠ [] ∧ (∀ c ∈ ws, jsWhiteSpace c = true) ∧
        List.Forall₂ (fun x w => ciMatch x w = true) idw "id".data ∧
        (after = [] ∨ ∃ d rest, after = d :: rest ∧ jsWordChar d = false) := by
  unfold matchReturningId
  constructor
  · intro h
    rcases hm : matchWord "returning".data l with _ | rest
    · rw [hm] at h; cases h
    · rw [hm] at h
      cases rest with
      | nil => cases h
      | cons c cs =>
        simp only [Bool.and_eq_true] at h
        obtain ⟨hc, h2⟩ := h
        obtain ⟨kw, hl, hkw⟩ := (matchWord_iff _ _ _).1 hm
        rcases hid : matchWord "id".data ((c :: cs).dropWhile jsWhiteSpace) with _ | after
        · rw [hid] at h2; cases h2
        · rw [hid] at h2
          obtain ⟨idw, hd, hidw⟩ := (matchWord_iff _ _ _).1 hid
          refine ⟨kw, (c :: cs).takeWhile jsWhiteSpace, idw, after, ?_, hkw, ?_, ?_, hidw, ?_⟩
          · rw [hl, ← hd, List.takeWhile_append_dropWhile]
          · rw [List.takeWhile_cons_of_pos hc]
            exact List.cons_ne_nil _ _
          · intro x hx
            exact List.mem_takeWhile_imp hx
          · cases after with
            | nil => exact Or.inl rfl
            | cons d rest => exact Or.inr ⟨d, rest, rfl, by simpa using h2⟩
  · rintro ⟨kw, ws, idw, after, hl, hkw, hne, hws, hidw, hafter⟩
    cases ws with
    | nil => exact absurd rfl hne
    | cons c ws' =>
      have hm : matchWord "returning".data l = some (c :: (ws' ++ (idw ++ after))) :=
        (matchWord_iff _ _ _).2 ⟨kw, by rw [hl, List.cons_append], hkw⟩
      have hhead : (idw ++ after).dropWhile jsWhiteSpace = idw ++ after := by
        cases hidw with
        | cons hx _ =>
          rw [List.cons_append, List.dropWhile_cons_of_neg]
          rw [ciMatch_not_whiteSpace _ hx]
          decide
      have hdrop : (c :: (ws' ++ (idw ++ after))).dropWhile jsWhiteSpace = idw ++ after := by
        have := dropWhile_append_all jsWhiteSpace (c :: ws') (idw ++ after) hws
        rw [List.cons_append] at this
        rw [this, hhead]
      have hid : matchWord "id".data (idw ++ after) = some after :=
        (matchWord_iff _ _ _).2 ⟨idw, rfl, hidw⟩
      rw [hm]
      simp only [hdrop, hid, Bool.and_eq_true]
      refine ⟨hws c (List.mem_cons_self c ws'), ?_⟩
      rcases hafter with rfl | ⟨d, rest, rfl, hd⟩
      · rfl
      · simp [hd]

theorem hasReturning_iff (trimmed : List Char) :
    hasReturning trimmed = true ↔ containsReturningId trimmed := by
  unfold hasReturning containsReturningId
  rw [List.any_eq_true]
  constructor
  · rintro ⟨l, hl, hm⟩
    obtain ⟨before, hb⟩ := (List.mem_tails _ _).1 hl
    obtain ⟨kw, ws, idw, after, hdec, h⟩ := (matchReturningId_iff l).1 hm
    exact ⟨before, kw, ws, idw, after, by rw [← hb, hdec], h⟩
  · rintro ⟨before, kw, ws, idw, after, hdec, h⟩
    refine ⟨kw ++ (ws ++ (idw ++ after)), (List.mem_tails _ _).2 ⟨before, hdec.symm⟩, ?_⟩
    exact (matchReturningId_iff _).2 ⟨kw, ws, idw, after, rfl, h⟩

/-- C18: for every statement, `run` passes to `pool.query` the placeholder translation of
`finalSql`, which is the trimmed statement with ` RETURNING id` appended exactly when the
trimmed statement starts with `insert` in any letter case followed by white space and
contains no `returning`, white space, `id` ended by a word boundary, and is the trimmed
statement itself otherwise; the text sent is the translated trimmed statement followed by
that clause or by nothing; `lastID` is the id of the first returned row for such an
insert and absent for every other statement, and `changes` is the row count. -/
theorem run_returning_rewrite {α : Type} (sql : String) (params : List α)
    (result : QueryResult) :
    (startsWithInsert (jsTrim sql.data) ∧ ¬containsReturningId (jsTrim sql.data) →
      finalSql sql = String.mk (jsTrim sql.data ++ " RETURNING id".data) ∧
      (runQuery sql params).1.data =
        replacePlaceholders 0 (jsTrim sql.data) ++ " RETURNING id".data) ∧
    (¬(startsWithInsert (jsTrim sql.data) ∧ ¬containsReturningId (jsTrim sql.data)) →
      finalSql sql = String.mk (jsTrim sql.data) ∧
      (runQuery sql params).1.data = replacePlaceholders 0 (jsTrim sql.data)) ∧
    (runQuery sql params).2 = params ∧
    (startsWithInsert (jsTrim sql.data) →
      (runContext sql result).lastID = result.rows.head?.join) ∧
    (¬startsWithInsert (jsTrim sql.data) → (runContext sql result).lastID = none) ∧
    (runContext sql result).changes = result.rowCount := by
  have hcond : (isInsert (jsTrim sql.data) && !hasReturning (jsTrim sql.data)) = true ↔
      startsWithInsert (jsTrim sql.data) ∧ ¬containsReturningId (jsTrim sql.data) := by
    rw [Bool.and_eq_true, isInsert_iff, Bool.not_eq_true', ← hasReturning_iff,
      Bool.not_eq_true]
  refine ⟨fun h => ?_, fun h => ?_, rfl, fun h => ?_, fun h => ?_, rfl⟩
  · have hf : finalSql sql = String.mk (jsTrim sql.data ++ " RETURNING id".data) := by
      unfold finalSql
      rw [if_pos (hcond.2 h)]
    refine ⟨hf, ?_⟩
    unfold runQuery toPgParams
    rw [hf]
    exact replacePlaceholders_append 0 _ _ (by decide)
  · have hf : finalSql sql = String.mk (jsTrim sql.data) := by
      unfold finalSql
      rw [if_neg fun hc => h (hcond.1 hc)]
    refine ⟨hf, ?_⟩
    unfold runQuery toPgParams
    rw [hf]
  · unfold runContext
    rw [if_pos ((isInsert_iff _).2 h)]
  · unfold runContext
    rw [if_neg fun hc => h ((isInsert_iff _).1 hc)]

/-- Witness of C18: an insert without returning clause gets the clause and reports the id
of the first row. -/
theorem run_returning_rewrite_witness :
    (finalSql "  INSERT INTO skills (name) VALUES (?)  " =
        String.mk (jsTrim "  INSERT INTO skills (name) VALUES (?)  ".data ++
          " RETURNING id".data) ∧
      (runQuery "  INSERT INTO skills (name) VALUES (?)  " ["React"]).1.data =
        replacePlaceholders 0 (jsTrim "  INSERT INTO skills (name) VALUES (?)  ".data) ++
          " RETURNING id".data) ∧
    (runQuery "  INSERT INTO skills (name) VALUES (?)  " ["React"]).1 =
      "INSERT INTO skills (name) VALUES ($1) RETURNING id" :=
  ⟨(run_returning_rewrite "  INSERT INTO skills (name) VALUES (?)  " ["React"]
      { rows := [some 12], rowCount := 1 }).1
      ⟨(isInsert_iff _).1 (by decide), fun h => absurd ((hasReturning_iff _).2 h) (by decide)⟩,
    by decide⟩

/-! ## The routes with their parameter -/

theorem toInt4_number (n : Int) (h : inInt4Range n) : (RouteParam.number n).toInt4 = .ok n := by
  simp only [RouteParam.toInt4, if_pos h]

/-- C8 (as stated, refuted): the three inputs are present and the swap_request_id matches
no SwapRequest, yet the call is answered 400 'Missing required fields' when `receiver_id`
is the number 0, and 500 when the swap_request_id is 2147483648, which the lookup rejects
as out of range for INTEGER; neither is the 404 of the claim. -/
theorem routePostChat_unknown_request_not_404 :
    (∀ r ∈ acceptedStore.swap_requests_app, r.id ≠ 5) ∧
    routePostChat acceptedStore (.number 5)
        { sender_id := some 2, receiver_id := some 0, message := some "hi" } 12 =
      (errorResponse 400 "Missing required fields", acceptedStore) ∧
    (∀ r ∈ acceptedStore.swap_requests_app, r.id ≠ 2147483648) ∧
    routePostChat acceptedStore (.number 2147483648)
        { sender_id := some 2, receiver_id := some 1, message := some "hi" } 12 =
      (errorResponse 500 "value \"2147483648\" is out of range for type integer",
       acceptedStore) := by
  decide

/-- C8 (amended): for every store state, a PostMessage whose swap_request_id lies in the
range of INTEGER and matches no SwapRequest, whose `sender_id` and `receiver_id` are
non-zero and whose `message` is non-empty, answers 404 'Swap request not found' and
returns the store unchanged. -/
theorem routePostChat_unknown_request (s : Store) (swapRequestId sender_id receiver_id : Int)
    (message : String) (now : Nat) (hrange : inInt4Range swapRequestId)
    (hnone : ∀ r ∈ s.swap_requests_app, r.id ≠ swapRequestId)
    (hs : sender_id ≠ 0) (hrc : receiver_id ≠ 0) (hm : message ≠ "") :
    routePostChat s (.number swapRequestId)
        { sender_id := some sender_id, receiver_id := some receiver_id,
          message := some message } now =
      (errorResponse 404 "Swap request not found", s) := by
  have hguard : ¬(sender_id = 0 ∨ receiver_id = 0 ∨ message = "") := by
    rintro (h | h | h)
    exacts [hs h, hrc h, hm h]
  simp only [routePostChat, if_neg hguard, toInt4_number swapRequestId hrange]
  exact postChat_unknown_request s swapRequestId sender_id receiver_id message now hnone
    hs hrc hm

/-- Witness of C8: a message for request 5 when only request 1 exists. -/
theorem routePostChat_unknown_request_witness :
    routePostChat acceptedStore (.number 5)
        { sender_id := some 2, receiver_id := some 1, message := some "hi" } 12 =
      (errorResponse 404 "Swap request not found", acceptedStore) :=
  routePostChat_unknown_request acceptedStore 5 2 1 "hi" 12 (by decide) (by decide) (by decide)
    (by decide) (by decide)

/-- C10 (as stated, refuted): for the user id 2147483648, which is outside the range of
INTEGER, MarkAllRead is answered 500 and the UnreadCount that follows is answered 500
with the error of the statement, not with count 0. -/
theorem routeGetUnreadCount_after_readAll_out_of_range :
    routePutNotificationsReadAll acceptedStore (.number 2147483648) =
      (errorResponse 500 "value \"2147483648\" is out of range for type integer",
       acceptedStore) ∧
    routeGetUnreadCount (routePutNotificationsReadAll acceptedStore (.number 2147483648)).2
        (.number 2147483648) =
      errorResponse 500 "value \"2147483648\" is out of range for type integer" ∧
    routeGetUnreadCount (routePutNotificationsReadAll acceptedStore (.number 2147483648)).2
        (.number 2147483648) ≠
      { status := 200, body := [("count", .num 0)] } := by
  decide

/-- C10 (amended): for every store state and every user id in the range of INTEGER,
MarkAllRead of the user is answered 200 with success and the UnreadCount of the user
asked right after it is answered 200 with count 0. -/
theorem routeGetUnreadCount_after_readAll (s : Store) (userId : Int)
    (hrange : inInt4Range userId) :
    (routePutNotificationsReadAll s (.number userId)).1 =
      { status := 200, body := [("success", .bool true)] } ∧
    routeGetUnreadCount (routePutNotificationsReadAll s (.number userId)).2 (.number userId) =
      { status := 200, body := [("count", .num 0)] } := by
  simp only [routePutNotificationsReadAll, routeGetUnreadCount, toInt4_number userId hrange]
  exact getUnreadCount_after_readAll s userId

/-- Witness of C10: user 1 of the store with an accepted request has one unread
notification before MarkAllRead and none after it. -/
theorem routeGetUnreadCount_after_readAll_witness :
    routeGetUnreadCount acceptedStore (.number 1) =
      { status := 200, body := [("count", .num 1)] } ∧
    ((routePutNotificationsReadAll acceptedStore (.number 1)).1 =
        { status := 200, body := [("success", .bool true)] } ∧
      routeGetUnreadCount (routePutNotificationsReadAll acceptedStore (.number 1)).2
          (.number 1) =
        { status := 200, body := [("count", .num 0)] }) :=
  ⟨by decide, routeGetUnreadCount_after_readAll acceptedStore 1 (by decide)⟩

/-- C11 (as stated, refuted): no notification belongs to the user id 2147483648, which is
outside the range of INTEGER, and UnreadCount of it is answered with the error 500, not
with count 0. -/
theorem routeGetUnreadCount_out_of_range :
    (∀ n ∈ acceptedStore.notifications_app, n.user_id ≠ 2147483648) ∧
    routeGetUnreadCount acceptedStore (.number 2147483648) =
      errorResponse 500 "value \"2147483648\" is out of range for type integer" ∧
    (routeGetUnreadCount acceptedStore (.number 2147483648)).status = 500 := by
  decide

/-- C11 (amended): for every store state and every user id in the range of INTEGER,
UnreadCount answers 200 with the number of Notifications whose `user_id` is the user and
whose `is_read` is false; when no notification belongs to the user the answer is 200 with
count 0. -/
theorem routeGetUnreadCount_counts (s : Store) (userId : Int) (hrange : inInt4Range userId) :
    routeGetUnreadCount s (.number userId) =
      { status := 200,
        body := [("count", .num (s.notifications_app.countP
          fun n => decide (n.user_id = userId ∧ n.is_read = false)))] } ∧
    ((∀ n ∈ s.notifications_app, n.user_id ≠ userId) →
      routeGetUnreadCount s (.number userId) =
        { status := 200, body := [("count", .num 0)] }) := by
  simp only [routeGetUnreadCount, toInt4_number userId hrange]
  exact getUnreadCount_counts s userId

/-- Witness of C11: user 2 has no notification in the store holding only users. -/
theorem routeGetUnreadCount_counts_witness :
    routeGetUnreadCount (Store.init [1, 2]) (.number 2) =
      { status := 200, body := [("count", .num 0)] } :=
  (routeGetUnreadCount_counts (Store.init [1, 2]) 2 (by decide)).2 (by decide)

/-- C12 (as stated, refuted): no notification has id 2147483648 and none belongs to a user
2147483648, a number outside the range of INTEGER, and MarkRead and MarkAllRead of it are
answered with the error 500, not with success (the store is unchanged). -/
theorem routeReadMarks_out_of_range :
    (∀ n ∈ acceptedStore.notifications_app, n.id ≠ 2147483648 ∧ n.user_id ≠ 2147483648) ∧
    routePutNotificationRead acceptedStore (.number 2147483648) =
      (errorResponse 500 "value \"2147483648\" is out of range for type integer",
       acceptedStore) ∧
    routePutNotificationsReadAll acceptedStore (.number 2147483648) =
      (errorResponse 500 "value \"2147483648\" is out of range for type integer",
       acceptedStore) := by
  decide

/-- C12 (amended): MarkRead and MarkAllRead are idempotent for every route parameter:
applying either twice leaves the store, and gives the answer, that applying it once does.
They are lenient for ids in the range of INTEGER: for every store state and every such
id, each answers 200 with success, also when no notification matches, in which case the
store is unchanged. -/
theorem routeReadMarks_idempotent_lenient (s : Store) (p q : RouteParam) (id userId : Int)
    (hid : inInt4Range id) (hu : inInt4Range userId) :
    routePutNotificationRead (routePutNotificationRead s p).2 p =
      routePutNotificationRead s p ∧
    routePutNotificationsReadAll (routePutNotificationsReadAll s q).2 q =
      routePutNotificationsReadAll s q ∧
    (routePutNotificationRead s (.number id)).1 =
      { status := 200, body := [("success", .bool true)] } ∧
    (routePutNotificationsReadAll s (.number userId)).1 =
      { status := 200, body := [("success", .bool true)] } ∧
    ((∀ n ∈ s.notifications_app, n.id ≠ id) →
      (routePutNotificationRead s (.number id)).2 = s) ∧
    ((∀ n ∈ s.notifications_app, n.user_id ≠ userId) →
      (routePutNotificationsReadAll s (.number userId)).2 = s) := by
  refine ⟨?_, ?_, ?_, ?_, ?_, ?_⟩
  · unfold routePutNotificationRead
    cases p.toInt4 with
    | error err => rfl
    | ok n => exact (read_marks_idempotent_lenient s n n).2.2.1
  · unfold routePutNotificationsReadAll
    cases q.toInt4 with
    | error err => rfl
    | ok n => exact (read_marks_idempotent_lenient s n n).2.2.2.1
  · simp only [routePutNotificationRead, toInt4_number id hid]
    rfl
  · simp only [routePutNotificationsReadAll, toInt4_number userId hu]
    rfl
  · simp only [routePutNotificationRead, toInt4_number id hid]
    exact (read_marks_idempotent_lenient s id userId).2.2.2.2.1
  · simp only [routePutNotificationsReadAll, toInt4_number userId hu]
    exact (read_marks_idempotent_lenient s id userId).2.2.2.2.2

/-- Witness of C12: marking notification 7 where only notifications 1 and 2 exist. -/
theorem routeReadMarks_idempotent_lenient_witness :
    (routePutNotificationRead acceptedStore (.number 7)).1 =
      { status := 200, body := [("success", .bool true)] } ∧
    (routePutNotificationRead acceptedStore (.number 7)).2 = acceptedStore :=
  ⟨(routeReadMarks_idempotent_lenient acceptedStore (.number 7) (.number 9) 7 9 (by decide)
      (by decide)).2.2.1,
   (routeReadMarks_idempotent_lenient acceptedStore (.number 7) (.number 9) 7 9 (by decide)
      (by decide)).2.2.2.2.1 (by decide)⟩

/-- C14 (as stated, refuted): for the swap_request_id 2147483648, which is outside the
range of INTEGER, ListMessages returns no list but the error 500 of the query. -/
theorem routeGetChat_out_of_range :
    routeGetChat acceptedStore (fun _ => none) (.number 2147483648) =
      .failed (errorResponse 500 "value \"2147483648\" is out of range for type integer") := by
  decide

/-- C14 (amended): on a store that satisfies its schema (with unique user ids), for every
swap_request_id in the range of INTEGER, ListMessages returns a list with status 200:
exactly the ChatMessages with that swap_request_id, each once and no other, every row with
the name of its sender, in non-decreasing order of `created_at` (oldest first). -/
theorem routeGetChat_sorted_perm (s : Store) (userName : Int → Option String)
    (swapRequestId : Int) (hrange : inInt4Range swapRequestId) (hwf : s.wf)
    (hu : s.users.Nodup) :
    ∃ rows, routeGetChat s userName (.number swapRequestId) = .ok rows ∧
      (rows.map (·.toChatMessage)).Perm
        (s.chat_messages.filter fun cm => cm.swap_request_id == swapRequestId) ∧
      rows.Sorted (fun a b => a.created_at ≤ b.created_at) ∧
      ∀ row ∈ rows, row.sender_name = userName row.sender_id := by
  refine ⟨getChat s userName swapRequestId, ?_, getChat_sorted_perm s userName swapRequestId
    hwf hu⟩
  simp only [routeGetChat, toInt4_number swapRequestId hrange]

/-- Witness of C14: two messages on the accepted request 1, the later one stored first,
are returned oldest first. -/
theorem routeGetChat_sorted_perm_witness :
    routeGetChat
        { acceptedStore with
          chat_messages :=
            [{ id := 1, swap_request_id := 1, sender_id := 2, receiver_id := 1,
               message := "second", created_at := 20 },
             { id := 2, swap_request_id := 1, sender_id := 1, receiver_id := 2,
               message := "first", created_at := 15 }],
          chat_messages_seq := 3 }
        (fun _ => none) (.number 1) =
      .ok [{ id := 2, swap_request_id := 1, sender_id := 1, receiver_id := 2,
             message := "first", created_at := 15, sender_name := none },
           { id := 1, swap_request_id := 1, sender_id := 2, receiver_id := 1,
             message := "second", created_at := 20, sender_name := none }] ∧
    ∃ rows, routeGetChat
        { acceptedStore with
          chat_messages :=
            [{ id := 1, swap_request_id := 1, sender_id := 2, receiver_id := 1,
               message := "second", created_at := 20 },
             { id := 2, swap_request_id := 1, sender_id := 1, receiver_id := 2,
               message := "first", created_at := 15 }],
          chat_messages_seq := 3 }
        (fun _ => none) (.number 1) = .ok rows ∧
      (rows.map (·.toChatMessage)).Perm
        (({ acceptedStore with
          chat_messages :=
            [{ id := 1, swap_request_id := 1, sender_id := 2, receiver_id := 1,
               message := "second", created_at := 20 },
             { id := 2, swap_request_id := 1, sender_id := 1, receiver_id := 2,
               message := "first", created_at := 15 }],
          chat_messages_seq := 3 } : Store).chat_messages.filter
            fun cm => cm.swap_request_id == 1) ∧
      rows.Sorted (fun a b => a.created_at ≤ b.created_at) ∧
      ∀ row ∈ rows, row.sender_name = (fun _ => none) row.sender_id :=
  ⟨by decide,
   routeGetChat_sorted_perm
    { acceptedStore with
      chat_messages :=
        [{ id := 1, swap_request_id := 1, sender_id := 2, receiver_id := 1,
           message := "second", created_at := 20 },
         { id := 2, swap_request_id := 1, sender_id := 1, receiver_id := 2,
           message := "first", created_at := 15 }],
      chat_messages_seq := 3 }
    (fun _ => none) 1 (by decide) (by decide) (by decide)⟩

/-- C13 (as stated, refuted): request 1 is accepted and its from_user_id (and to_user_id)
is user 1, yet ListConversations of user 1 returns no entry; and for the user id
2147483648, which is outside the range of INTEGER, ListConversations returns no list but
the error 500 of the query. -/
theorem routeGetChatUser_omits_self_swap :
    selfSwapStore.wf ∧
    selfSwapStore.swap_requests_app.map
      (fun r => (r.id, r.from_user_id, r.to_user_id, r.status)) = [(1, 1, 1, "accepted")] ∧
    routeGetChatUser selfSwapStore (fun _ => none) (.number 1) = .ok [] ∧
    routeGetChatUser selfSwapStore (fun _ => none) (.number 2147483648) =
      .failed (errorResponse 500 "value \"2147483648\" is out of range for type integer") := by
  decide

/-- C13 (amended): on a store that satisfies its schema (with unique user ids), for every
user id in the range of INTEGER, ListConversations returns a list with status 200 that
has, up to order, one entry for every SwapRequest with status `accepted` whose
from_user_id or to_user_id is the user and whose two parties are different users, and no
other entry; the entry carries the other party as counterpart and an unread_count equal
to the number of ChatMessages of that request with receiver_id the user whose id is not
the related_id of any Notification with user_id the user, type `chat_message` and is_read
true. -/
theorem routeGetChatUser_entries (s : Store) (userName : Int → Option String) (userId : Int)
    (hrange : inInt4Range userId) (hwf : s.wf) (hu : s.users.Nodup) :
    ∃ rows, routeGetChatUser s userName (.number userId) = .ok rows ∧
      rows.Perm
        ((s.swap_requests_app.filter fun sr =>
            decide (sr.status = "accepted" ∧
              (sr.from_user_id = userId ∨ sr.to_user_id = userId) ∧
              sr.from_user_id ≠ sr.to_user_id)).map fun sr =>
          { swap_request_id := sr.id, offered_skill := sr.offered_skill,
            wanted_skill := sr.wanted_skill, request_date := sr.created_at,
            other_user_name :=
              userName (if sr.from_user_id = userId then sr.to_user_id else sr.from_user_id),
            other_user_id :=
              if sr.from_user_id = userId then sr.to_user_id else sr.from_user_id,
            unread_count := specUnreadCount s sr.id userId }) := by
  refine ⟨getChatUser s userName userId, ?_, getChatUser_entries s userName userId hwf hu⟩
  simp only [routeGetChatUser, toInt4_number userId hrange]

/-- Witness of C13: user 2 sees the accepted request 1 with counterpart user 1. -/
theorem routeGetChatUser_entries_witness :
    routeGetChatUser acceptedStore (fun _ => none) (.number 2) =
      .ok [{ swap_request_id := 1, offered_skill := "JS", wanted_skill := "Design",
             request_date := 10, other_user_name := none, other_user_id := 1,
             unread_count := 0 }] ∧
    ∃ rows, routeGetChatUser acceptedStore (fun _ => none) (.number 2) = .ok rows ∧
      rows.Perm
        ((acceptedStore.swap_requests_app.filter fun sr =>
            decide (sr.status = "accepted" ∧
              (sr.from_user_id = (2 : Int) ∨ sr.to_user_id = (2 : Int)) ∧
              sr.from_user_id ≠ sr.to_user_id)).map fun sr =>
          { swap_request_id := sr.id, offered_skill := sr.offered_skill,
            wanted_skill := sr.wanted_skill, request_date := sr.created_at,
            other_user_name :=
              (fun _ => none) (if sr.from_user_id = (2 : Int) then sr.to_user_id else sr.from_user_id),
            other_user_id :=
              if sr.from_user_id = (2 : Int) then sr.to_user_id else sr.from_user_id,
            unread_count := specUnreadCount acceptedStore sr.id 2 }) :=
  ⟨by decide,
   routeGetChatUser_entries acceptedStore (fun _ => none) 2 (by decide) (by decide)
    (by decide)⟩

end Nexus
